import Mathlib

/-!
Verification development for the checkmk Kubernetes-namespaces plugin.

Shallow embedding of:
* the agent-side collector `mkp/agents/plugins/kubernetes_namespaces.py`
  (resource extractors over raw `kubectl get all` JSON dumps), and
* the server-side check plugin
  `mkp/lib/python3/cmk/base/plugins/agent_based/kubernetes_namespaces.py`
  (record parser, discovery engine, check evaluator).

Python values are modelled by the inductive `J`; fallible dictionary /
index accesses run in `Except String` (the error string names the Python
exception).  Python `float` arithmetic (true division, multiplication)
is modelled exactly by rounding rationals to the nearest IEEE-754
binary64 value (round-to-nearest, ties-to-even); the values arising here
are all in the normal range, where that model is exact.
-/

set_option maxRecDepth 4000

namespace KubernetesNamespaces

/-! ### Python value model -/

/-- Model of a Python/JSON value as delivered by `kubectl ... --output json`. -/
inductive J where
  | null
  | bool (b : Bool)
  | num (n : Int)
  | str (s : String)
  | list (xs : List J)
  | obj (fields : List (String × J))

/-- Boolean equality on Python values (Python `==` on the fragment we model). -/
def jBeq : J → J → Bool
  | .null, .null => true
  | .bool a, .bool b => a == b
  | .num a, .num b => a == b
  | .str a, .str b => a == b
  | .list xs, .list ys => jBeqList xs ys
  | .obj xs, .obj ys => jBeqObj xs ys
  | _, _ => false
where
  jBeqList : List J → List J → Bool
    | [], [] => true
    | x :: xs, y :: ys => jBeq x y && jBeqList xs ys
    | _, _ => false
  jBeqObj : List (String × J) → List (String × J) → Bool
    | [], [] => true
    | (k, x) :: xs, (l, y) :: ys => k == l && jBeq x y && jBeqObj xs ys
    | _, _ => false

instance : BEq J := ⟨jBeq⟩

/-- Python truthiness of a value (`bool(v)`). -/
def jTruthy : J → Bool
  | .null => false
  | .bool b => b
  | .num n => n != 0
  | .str s => s != ""
  | .list xs => !xs.isEmpty
  | .obj fs => !fs.isEmpty

/-- Python truthiness of a `dict.get` result (`None` is falsy). -/
def optTruthy : Option J → Bool
  | none => false
  | some v => jTruthy v

/-- First binding of key `k` in an association list (Python dicts never
hold duplicate keys, so this is plain dict lookup). -/
def jLookup (fs : List (String × J)) (k : String) : Option J :=
  (fs.find? (fun p => p.1 == k)).map (·.2)

/-- Python `v.get(k)`: raises `AttributeError` when `v` is not a dict. -/
def jGet (v : J) (k : String) : Except String (Option J) :=
  match v with
  | .obj fs => .ok (jLookup fs k)
  | _ => .error "AttributeError: get"

/-- Python `v.get(k, dflt)`. -/
def jGetD (v : J) (k : String) (dflt : J) : Except String J := do
  match (← jGet v k) with
  | some w => pure w
  | none => pure dflt

/-- Python `v[k]` for a string key: `KeyError` when the key is absent,
`TypeError` when `v` is not subscriptable by strings. -/
def jIdx (v : J) (k : String) : Except String J :=
  match v with
  | .obj fs =>
    match jLookup fs k with
    | some w => .ok w
    | none => .error "KeyError"
  | _ => .error "TypeError: not subscriptable"

/-- Contiguous-sublist test on character lists, structural on the host. -/
def isSubListOf (pat : List Char) : List Char → Bool
  | [] => pat.isPrefixOf []
  | c :: cs => pat.isPrefixOf (c :: cs) || isSubListOf pat cs

/-- Python `k in v` for a string `k`: key test on dicts, membership on
lists, substring test on strings, `TypeError` otherwise. -/
def jHasKey (v : J) (k : String) : Except String Bool :=
  match v with
  | .obj fs => .ok (fs.any (fun p => p.1 == k))
  | .list xs => .ok (xs.any (fun x => jBeq x (.str k)))
  | .str s => .ok (isSubListOf k.data s.data)
  | _ => .error "TypeError: argument of type is not iterable"

/-- Python iteration `for x in v` collected into a list: lists yield their
elements, dicts their keys, strings their characters. -/
def jAsList (v : J) : Except String (List J) :=
  match v with
  | .list xs => .ok xs
  | .obj fs => .ok (fs.map (fun p => .str p.1))
  | .str s => .ok (s.data.map (fun c => .str (String.mk [c])))
  | _ => .error "TypeError: not iterable"

/-- Python dict assignment `d[k] = v`: overwrite in place when the key
exists, append otherwise (insertion order preserved). -/
def dictInsert (d : List (String × α)) (k : String) (v : α) : List (String × α) :=
  if d.any (fun p => p.1 == k) then
    d.map (fun p => if p.1 == k then (k, v) else p)
  else
    d ++ [(k, v)]

/-- Monadic filter evaluating the predicate left to right, propagating the
first raised exception (models a Python list comprehension whose
predicate may raise). -/
def filterE (p : α → Except String Bool) : List α → Except String (List α)
  | [] => .ok []
  | x :: xs => do
    let b ← p x
    let rest ← filterE p xs
    pure (if b then x :: rest else rest)

/-! ### Python string helpers -/

/-- Auxiliary for whitespace splitting, structural on the character list. -/
def splitWsAux : List Char → List Char → List (List Char)
  | [], acc => if acc.isEmpty then [] else [acc.reverse]
  | c :: cs, acc =>
    if c.isWhitespace then
      if acc.isEmpty then splitWsAux cs [] else acc.reverse :: splitWsAux cs []
    else
      splitWsAux cs (c :: acc)

/-- Python `s.split()` (no argument): split on whitespace runs, no empty
fields. -/
def pySplitWs (s : String) : List String :=
  (splitWsAux s.data []).map String.mk

/-- Auxiliary for separator splitting; `fuel` bounds the recursion (it is
always at least the number of remaining characters plus one). -/
def splitSepAux (sep : List Char) : Nat → List Char → List Char → List (List Char)
  | 0, cs, acc => [acc.reverse ++ cs]
  | fuel + 1, cs, acc =>
    if sep ≠ [] && sep.isPrefixOf cs then
      acc.reverse :: splitSepAux sep fuel (cs.drop sep.length) []
    else
      match cs with
      | [] => [acc.reverse]
      | c :: cs2 => splitSepAux sep fuel cs2 (c :: acc)

/-- Python `s.split(sep)` for a non-empty separator. -/
def pySplit (s sep : String) : List String :=
  (splitSepAux sep.data (s.data.length + 1) s.data []).map String.mk

/-- Python `s.splitlines()` restricted to `\n` line breaks (the only line
break the `df` output and the agent transport contain): like splitting on
`\n` but without a trailing empty line. -/
def pySplitlines (s : String) : List String :=
  if s = "" then []
  else
    let ls := pySplit s "\n"
    if ls.getLastD "" = "" then ls.dropLast else ls

/-- Python `s.isdigit()` for ASCII content. -/
def pyIsDigit (s : String) : Bool :=
  !s.isEmpty && s.data.all Char.isDigit

/-- Python `int(s)` on a digit-only string. -/
def pyToNat (s : String) : Nat :=
  s.data.foldl (fun n c => n * 10 + (c.toNat - 48)) 0

/-- Python `l[-1]` on a list of strings (`IndexError` when empty). -/
def idxLast (l : List String) : Except String String :=
  match l.getLast? with
  | some x => .ok x
  | none => .error "IndexError"

/-- Python `l[-2]` (`IndexError` when fewer than two elements). -/
def idxLast2 (l : List String) : Except String String :=
  match l.reverse with
  | _ :: x :: _ => .ok x
  | _ => .error "IndexError"

/-! ### Exact model of IEEE-754 binary64 rounding

Python `/` on integers and `*` on floats produce correctly rounded
binary64 results.  For the positive, normal-range values arising in this
program the rounded value is the dyadic rational `m / 2 ^ s` with
`2 ^ 52 ≤ m < 2 ^ 53` (or `m = 2 ^ 53` after a carry) nearest to the
exact value, ties to even `m`. -/

/-- Fuel-driven base-2 logarithm (kernel-reducible). -/
def log2fuel : Nat → Nat → Nat
  | 0, _ => 0
  | fuel + 1, n => if n ≤ 1 then 0 else log2fuel fuel (n / 2) + 1

/-- `⌊log₂ n⌋` for `n ≥ 1`. -/
def nlog2 (n : Nat) : Nat := log2fuel n n

/-- Round `num / den` (with `den > 0`) to the nearest integer, ties to
even. -/
def rhe (num den : Nat) : Nat :=
  let q := num / den
  let r := num % den
  if 2 * r < den then q
  else if den < 2 * r then q + 1
  else if q % 2 = 0 then q else q + 1

/-- Scaled numerator/denominator of `(a / b) * 2 ^ s`. -/
def dScaled (a b : Nat) (s : Int) : Nat × Nat :=
  if 0 ≤ s then (a * 2 ^ s.toNat, b) else (a, b * 2 ^ (-s).toNat)

/-- Whether `2 ^ 52 ≤ (a / b) * 2 ^ s < 2 ^ 53`. -/
def dInRange (a b : Nat) (s : Int) : Bool :=
  let (n, d) := dScaled a b s
  2 ^ 52 * d ≤ n && n < 2 ^ 53 * d

/-- The scaling exponent placing `a / b` into `[2 ^ 52, 2 ^ 53)`. -/
def dScale (a b : Nat) : Int :=
  let s0 : Int := 52 + (nlog2 b : Int) - (nlog2 a : Int)
  if dInRange a b s0 then s0 else s0 + 1

/-- The binary64 value nearest to `a / b` (`b > 0`), as a
mantissa/shift pair `(m, s)` denoting `m / 2 ^ s`: round-to-nearest,
ties-to-even, exact in the normal range (all values arising here). -/
def roundDoublePair (a b : Nat) : Nat × Int :=
  let s := dScale a b
  let (n, d) := dScaled a b s
  (rhe n d, s)

/-- The binary64 product of the double `m / 2 ^ s` with the integer
`100` (correctly rounded, as Python's float multiplication). -/
def doubleMul100 (m : Nat) (s : Int) : Nat × Int :=
  if 0 ≤ s then roundDoublePair (m * 100) (2 ^ s.toNat)
  else roundDoublePair (m * 100 * 2 ^ (-s).toNat) 1

/-- Python `int(x)` on the non-negative double `m / 2 ^ s`: truncation
toward zero. -/
def doubleTruncNat (m : Nat) (s : Int) : Nat :=
  if 0 ≤ s then m / 2 ^ s.toNat else m * 2 ^ (-s).toNat

/-- Python `int((used / capacity) * 100)` computed in binary64
arithmetic, for `capacity ≠ 0` (the collector's percentage
computation). -/
def pyPercent (used capacity : Nat) : Int :=
  let (m1, s1) := roundDoublePair used capacity
  let (m2, s2) := doubleMul100 m1 s1
  (doubleTruncNat m2 s2 : Int)

/-- Two-digit zero padding. -/
def pad2 (n : Nat) : String :=
  if n < 10 then "0" ++ toString n else toString n

/-- Python `f'{b / 1024 ^ k:.2f}'` computed in binary64 arithmetic: the
division is correctly rounded to a double, whose exact value is then
formatted with two decimals, ties to even. -/
def bytesHumanFmt (b : Nat) (k : Nat) : String :=
  let (m, s) := roundDoublePair b (1024 ^ k)
  let n :=
    if 0 ≤ s then rhe (m * 100) (2 ^ s.toNat)
    else m * 100 * 2 ^ (-s).toNat
  toString (n / 100) ++ "." ++ pad2 (n % 100)

/-! ### Agent-side collector: resource extractors
(`mkp/agents/plugins/kubernetes_namespaces.py`)

Extractor results are Python dicts whose keys are arbitrary Python
values (whatever `metadata.name` held), modelled as `List (J × J)` in
insertion order. -/

/-- Python `o == 'lit'` where `o` is a `dict.get` result (`None` compares
unequal to every string). -/
def optBeqStr (o : Option J) (s : String) : Bool :=
  match o with
  | some v => jBeq v (.str s)
  | none => false

/-- Python `o != 'lit'` where `o` is a `dict.get` result. -/
def optNeqStr (o : Option J) (s : String) : Bool :=
  match o with
  | some v => !jBeq v (.str s)
  | none => true

/-- A `dict.get` result used as a value (`None` when absent). -/
def optToJ (o : Option J) : J :=
  match o with
  | some v => v
  | none => .null

/-- Python `len(v)`. -/
def jLen (v : J) : Except String Nat :=
  match v with
  | .list xs => .ok xs.length
  | .obj fs => .ok fs.length
  | .str s => .ok s.data.length
  | _ => .error "TypeError: has no len"

/-- Dict assignment on a Python-valued-key dict. -/
def jDictInsert (d : List (J × J)) (k v : J) : List (J × J) :=
  if d.any (fun p => jBeq p.1 k) then
    d.map (fun p => if jBeq p.1 k then (k, v) else p)
  else
    d ++ [(k, v)]

/-- Python `l[0]`. -/
def jIdx0 (v : J) : Except String J :=
  match v with
  | .list (x :: _) => .ok x
  | .list [] => .error "IndexError"
  | .str s =>
    match s.data with
    | c :: _ => .ok (.str (String.mk [c]))
    | [] => .error "IndexError"
  | .obj _ => .error "KeyError"
  | _ => .error "TypeError: not subscriptable"

/-- `d['metadata']['name']` (evaluated afresh at each Python access site). -/
def jMetaName (d : J) : Except String J := do
  jIdx (← jIdx d "metadata") "name"

/-- `namespace_resources['items']` iterated as a list (shared first step
of every extractor). -/
def collectorItems (namespace_resources : J) : Except String (List J) := do
  jAsList (← jIdx namespace_resources "items")

/-- Run a per-item step over the filtered resource list, building the
result dict; `step` returns the key/value pair to store, or `none` when
the item is skipped. -/
def foldSteps (step : J → Except String (Option (J × J))) :
    List J → List (J × J) → Except String (List (J × J))
  | [], acc => .ok acc
  | x :: xs, acc => do
    match (← step x) with
    | some (k, v) => foldSteps step xs (jDictInsert acc k v)
    | none => foldSteps step xs acc

/-- The guard of `get_deployments`: `deployment.get('metadata') and
deployment['metadata'].get('name') and deployment.get('status') and
deployment['status'].get('replicas') and (deployment['status'].get('readyReplicas')
or deployment['status'].get('unavailableReplicas'))`, with Python
short-circuit evaluation. -/
def deploymentWanted (d : J) : Except String Bool := do
  if !optTruthy (← jGet d "metadata") then return false
  if !optTruthy (← jGet (← jIdx d "metadata") "name") then return false
  if !optTruthy (← jGet d "status") then return false
  if !optTruthy (← jGet (← jIdx d "status") "replicas") then return false
  if optTruthy (← jGet (← jIdx d "status") "readyReplicas") then return true
  return optTruthy (← jGet (← jIdx d "status") "unavailableReplicas")

/-- Processing of one filtered item of `get_deployments`. -/
def deploymentStep (d : J) : Except String (Option (J × J)) := do
  if (← deploymentWanted d) then
    let status ← jIdx d "status"
    let entry : J := .obj [
      ("replicas", ← jIdx status "replicas"),
      ("ready_replicas", ← jGetD status "readyReplicas" (.num 0)),
      ("unavailable_replicas", ← jGetD status "unavailableReplicas" (.num 0))]
    pure (some (← jMetaName d, entry))
  else
    pure none

/-- `get_deployments` of the collector. -/
def get_deployments (namespace_resources : J) : Except String (List (J × J)) := do
  let items ← collectorItems namespace_resources
  let deployments_resources ← filterE
    (fun x => do pure (jBeq (← jIdx x "kind") (.str "Deployment"))) items
  foldSteps deploymentStep deployments_resources []

/-- The guard of `get_daemonsets`. -/
def daemonsetWanted (d : J) : Except String Bool := do
  if !optTruthy (← jGet d "metadata") then return false
  if !optTruthy (← jGet (← jIdx d "metadata") "name") then return false
  if !optTruthy (← jGet d "status") then return false
  if !optTruthy (← jGet (← jIdx d "status") "currentNumberScheduled") then return false
  if optTruthy (← jGet (← jIdx d "status") "numberReady") then return true
  return optTruthy (← jGet (← jIdx d "status") "numberUnavailable")

/-- Processing of one filtered item of `get_daemonsets`. -/
def daemonsetStep (d : J) : Except String (Option (J × J)) := do
  if (← daemonsetWanted d) then
    let status ← jIdx d "status"
    let entry : J := .obj [
      ("current_number_scheduled", ← jIdx status "currentNumberScheduled"),
      ("number_ready", ← jGetD status "numberReady" (.num 0)),
      ("number_unavailable", ← jGetD status "numberUnavailable" (.num 0)),
      ("desired_number_scheduled", ← jGetD status "desiredNumberScheduled" (.num 0))]
    pure (some (← jMetaName d, entry))
  else
    pure none

/-- `get_daemonsets` of the collector. -/
def get_daemonsets (namespace_resources : J) : Except String (List (J × J)) := do
  let items ← collectorItems namespace_resources
  let daemonsets_resources ← filterE
    (fun x => do pure (jBeq (← jIdx x "kind") (.str "DaemonSet"))) items
  foldSteps daemonsetStep daemonsets_resources []

/-- The guard of `get_cronjobs`: metadata, name and status present. -/
def cronjobWanted (c : J) : Except String Bool := do
  if !optTruthy (← jGet c "metadata") then return false
  if !optTruthy (← jGet (← jIdx c "metadata") "name") then return false
  return optTruthy (← jGet c "status")

/-- Processing of one filtered item of `get_cronjobs`. -/
def cronjobStep (c : J) : Except String (Option (J × J)) := do
  if (← cronjobWanted c) then
    let active ← jLen (← jGetD (← jIdx c "status") "active" (.list []))
    pure (some (← jMetaName c, .obj [("active", .num (active : Int))]))
  else
    pure none

/-- `get_cronjobs` of the collector. -/
def get_cronjobs (namespace_resources : J) : Except String (List (J × J)) := do
  let items ← collectorItems namespace_resources
  let cronjobs_resources ← filterE
    (fun x => do pure (jBeq (← jIdx x "kind") (.str "CronJob"))) items
  foldSteps cronjobStep cronjobs_resources []

/-- The outer guard of `get_replicasets`, Python
`replicaset.get('metadata') and not replicaset['metadata'].get('ownerReferences')
or replicaset['metadata']['ownerReferences'][0].get('kind') != 'Deployment'`,
which parses as `(A and B) or C` with short-circuit evaluation. -/
def replicasetOwnerCond (rs : J) : Except String Bool := do
  let a := optTruthy (← jGet rs "metadata")
  let ab ← (if a then do
      pure (!optTruthy (← jGet (← jIdx rs "metadata") "ownerReferences"))
    else
      pure false)
  if ab then
    return true
  else do
    let owner0 ← jIdx0 (← jIdx (← jIdx rs "metadata") "ownerReferences")
    return optNeqStr (← jGet owner0 "kind") "Deployment"

/-- The inner guard of `get_replicasets` (name and status fields). -/
def replicasetValidCond (rs : J) : Except String Bool := do
  if !optTruthy (← jGet (← jIdx rs "metadata") "name") then return false
  if !optTruthy (← jGet rs "status") then return false
  if !optTruthy (← jGet (← jIdx rs "status") "replicas") then return false
  if optTruthy (← jGet (← jIdx rs "status") "readyReplicas") then return true
  return optTruthy (← jGet (← jIdx rs "status") "availableReplicas")

/-- Processing of one filtered item of `get_replicasets`. -/
def replicasetStep (rs : J) : Except String (Option (J × J)) := do
  if (← replicasetOwnerCond rs) then
    if (← replicasetValidCond rs) then
      let status ← jIdx rs "status"
      let entry : J := .obj [
        ("replicas", ← jIdx status "replicas"),
        ("ready_replicas", ← jGetD status "readyReplicas" (.num 0)),
        ("available_replicas", ← jGetD status "availableReplicas" (.num 0))]
      pure (some (← jMetaName rs, entry))
    else
      pure none
  else
    pure none

/-- `get_replicasets` of the collector. -/
def get_replicasets (namespace_resources : J) : Except String (List (J × J)) := do
  let items ← collectorItems namespace_resources
  let replicasets_resources ← filterE
    (fun x => do pure (jBeq (← jIdx x "kind") (.str "ReplicaSet"))) items
  foldSteps replicasetStep replicasets_resources []

/-- Fold in `Except`, left to right, stopping at the first raise. -/
def foldE (f : σ → α → Except String σ) : σ → List α → Except String σ
  | s, [] => .ok s
  | s, x :: xs => do foldE f (← f s x) xs

/-- The fresh container-state record stored for each named pod. -/
def emptyPodEntry : J :=
  .obj [("containers", .obj [
    ("crashing", .list []),
    ("running", .list []),
    ("waiting", .list []),
    ("terminated", .list [])])]

/-- Python `pods[key]['containers'][bucket].append(elem)`: in-place list
append, `KeyError` when the pod was never registered. -/
def podsAppend (pods : List (J × J)) (key : J) (bucket : String) (elem : J) :
    Except String (List (J × J)) := do
  match pods.find? (fun p => jBeq p.1 key) with
  | none => .error "KeyError"
  | some (_, v) => do
    let containers ← jIdx v "containers"
    match (← jIdx containers bucket) with
    | .list xs =>
      let containers2 := match containers with
        | .obj fs => J.obj (fs.map (fun p =>
            if p.1 == bucket then (p.1, J.list (xs ++ [elem])) else p))
        | c => c
      let v2 := match v with
        | .obj fs => J.obj (fs.map (fun p =>
            if p.1 == "containers" then (p.1, containers2) else p))
        | w => w
      pure (pods.map (fun p => if jBeq p.1 key then (p.1, v2) else p))
    | _ => .error "AttributeError: append"

/-- Processing of one container status inside `get_pods`. -/
def podCsStep (pod : J) (pods : List (J × J)) (cs : J) :
    Except String (List (J × J)) := do
  if optTruthy (← jGet cs "state") then
    let state ← jIdx cs "state"
    let pods1 ← (do
      if optTruthy (← jGet state "waiting") then
        let pods2 ← podsAppend pods (← jMetaName pod) "waiting" (optToJ (← jGet cs "name"))
        if optBeqStr (← jGet (← jIdx state "waiting") "reason") "CrashLoopBackOff" then
          podsAppend pods2 (← jMetaName pod) "crashing" (optToJ (← jGet cs "name"))
        else
          pure pods2
      else
        pure pods)
    let pods2 ← (do
      if optTruthy (← jGet state "running") then
        podsAppend pods1 (← jMetaName pod) "running" (optToJ (← jGet cs "name"))
      else
        pure pods1)
    if optTruthy (← jGet state "terminated") then
      podsAppend pods2 (← jMetaName pod) "terminated" (optToJ (← jGet cs "name"))
    else
      pure pods2
  else
    pure pods

/-- Processing of one filtered pod item of `get_pods`. -/
def podStep (pods : List (J × J)) (pod : J) : Except String (List (J × J)) := do
  let pods1 ← (do
    if optTruthy (← jGet pod "metadata") then
      if optTruthy (← jGet (← jIdx pod "metadata") "name") then
        pure (jDictInsert pods (← jMetaName pod) emptyPodEntry)
      else
        pure pods
    else
      pure pods)
  if optTruthy (← jGet pod "status") then
    if optTruthy (← jGet (← jIdx pod "status") "containerStatuses") then
      let csList ← jAsList (← jIdx (← jIdx pod "status") "containerStatuses")
      foldE (podCsStep pod) pods1 csList
    else
      pure pods1
  else
    pure pods1

/-- `get_pods` of the collector. -/
def get_pods (namespace_resources : J) : Except String (List (J × J)) := do
  let items ← collectorItems namespace_resources
  let pods_resources ← filterE
    (fun x => do pure (jBeq (← jIdx x "kind") (.str "Pod"))) items
  foldE podStep [] pods_resources

/-! #### `get_persistent_volumes`

The in-pod usage sampler (`kubectl exec <pod> --namespace <ns> -- df
<mountPath>`, raw-text output) is an external collaborator, passed in as
a function; every invocation is recorded in a trace so that the
sampling-call count is observable.  An empty sampler result models
"kubectl produced no stdout" (the collector then gets `dict()`, which is
falsy, exactly like an empty string). -/

/-- One recorded invocation of the in-pod usage sampler. -/
structure SampleCall where
  mountName : J
  podName : J
  podNamespace : J
  mountPath : J

/-- Mutable state of `get_persistent_volumes`: the `mounts_scanned` list
and the result dict. -/
structure PvState where
  mounts_scanned : List J
  persistent_volumes : List (J × J)

/-- The `df`-output parsing loop of `get_persistent_volumes`: for each
line with 2..6 whitespace-separated fields, unpack the trailing five
fields (a `ValueError` when there are fewer than five), require the
capacity/used/available fields to be digit strings, convert 1-KiB block
counts to bytes and record the entry under the volume's claim name.
`gns` is the module-level `namespace` variable interpolated into the
entry. -/
def parseDfLines (gns volume : J) : List String → List (J × J) → Except String (List (J × J))
  | [], pvs => .ok pvs
  | df_line :: rest, pvs =>
    let toks := pySplitWs df_line
    if toks.length ≤ 6 && 1 < toks.length then
      match toks.reverse with
      | _mountpoint :: _used_percent :: available :: used :: capacity :: _ =>
        if pyIsDigit capacity && pyIsDigit used && pyIsDigit available then
          let capacityN := pyToNat capacity * 1024
          let usedN := pyToNat used * 1024
          let availableN := pyToNat available * 1024
          if capacityN = 0 then
            .error "ZeroDivisionError"
          else do
            let percentage := pyPercent usedN capacityN
            let claim ← jIdx (← jIdx volume "persistentVolumeClaim") "claimName"
            let entry : J := .obj [
              ("namespace", gns),
              ("pvc", claim),
              ("percentage", .num percentage),
              ("capacity", .num (capacityN : Int)),
              ("used", .num (usedN : Int)),
              ("available", .num (availableN : Int))]
            parseDfLines gns volume rest (jDictInsert pvs claim entry)
        else
          parseDfLines gns volume rest pvs
      | _ => .error "ValueError: not enough values to unpack"
    else
      parseDfLines gns volume rest pvs

/-- The innermost loop of `get_persistent_volumes` over a container's
`volumeMounts`; the trace accumulator survives a raise. -/
def pvMounts (sampler : J → J → J → String) (gns pod volume : J) :
    List J → PvState → List SampleCall → (Except String PvState) × List SampleCall
  | [], st, tr => (.ok st, tr)
  | mount :: rest, st, tr =>
    match jIdx mount "name" with
    | .error e => (.error e, tr)
    | .ok mname =>
      match jIdx volume "name" with
      | .error e => (.error e, tr)
      | .ok vname =>
        if jBeq mname vname && !(st.mounts_scanned.any (fun x => jBeq x mname)) then
          match jMetaName pod with
          | .error e => (.error e, tr)
          | .ok podName =>
            match (do jIdx (← jIdx pod "metadata") "namespace" : Except String J) with
            | .error e => (.error e, tr)
            | .ok podNs =>
              match jIdx mount "mountPath" with
              | .error e => (.error e, tr)
              | .ok mpath =>
                let df := sampler podName podNs mpath
                let tr2 := tr ++ [⟨mname, podName, podNs, mpath⟩]
                match (if df ≠ "" then
                    parseDfLines gns volume (pySplitlines df) st.persistent_volumes
                  else
                    .ok st.persistent_volumes) with
                | .error e => (.error e, tr2)
                | .ok pvs2 =>
                  pvMounts sampler gns pod volume rest
                    ⟨st.mounts_scanned ++ [mname], pvs2⟩ tr2
        else
          pvMounts sampler gns pod volume rest st tr

/-- Loop of `get_persistent_volumes` over a pod's containers. -/
def pvContainers (sampler : J → J → J → String) (gns pod volume : J) :
    List J → PvState → List SampleCall → (Except String PvState) × List SampleCall
  | [], st, tr => (.ok st, tr)
  | container :: rest, st, tr =>
    match jHasKey volume "persistentVolumeClaim" with
    | .error e => (.error e, tr)
    | .ok b =>
      if b then
        match (do jAsList (← jIdx container "volumeMounts") : Except String (List J)) with
        | .error e => (.error e, tr)
        | .ok mounts =>
          match pvMounts sampler gns pod volume mounts st tr with
          | (.error e, tr2) => (.error e, tr2)
          | (.ok st2, tr2) => pvContainers sampler gns pod volume rest st2 tr2
      else
        pvContainers sampler gns pod volume rest st tr

/-- Loop of `get_persistent_volumes` over a pod's declared volumes
(`pod['spec']['containers']` is re-indexed for every volume, as in the
source). -/
def pvVolumes (sampler : J → J → J → String) (gns pod : J) :
    List J → PvState → List SampleCall → (Except String PvState) × List SampleCall
  | [], st, tr => (.ok st, tr)
  | volume :: rest, st, tr =>
    match (do jAsList (← jIdx (← jIdx pod "spec") "containers") : Except String (List J)) with
    | .error e => (.error e, tr)
    | .ok containers =>
      match pvContainers sampler gns pod volume containers st tr with
      | (.error e, tr2) => (.error e, tr2)
      | (.ok st2, tr2) => pvVolumes sampler gns pod rest st2 tr2

/-- Loop of `get_persistent_volumes` over the running pods. -/
def pvPods (sampler : J → J → J → String) (gns : J) :
    List J → PvState → List SampleCall → (Except String PvState) × List SampleCall
  | [], st, tr => (.ok st, tr)
  | pod :: rest, st, tr =>
    match (do jHasKey (← jIdx pod "spec") "volumes" : Except String Bool) with
    | .error e => (.error e, tr)
    | .ok b =>
      if b then
        match (do jAsList (← jIdx (← jIdx pod "spec") "volumes") : Except String (List J)) with
        | .error e => (.error e, tr)
        | .ok volumes =>
          match pvVolumes sampler gns pod volumes st tr with
          | (.error e, tr2) => (.error e, tr2)
          | (.ok st2, tr2) => pvPods sampler gns rest st2 tr2
      else
        pvPods sampler gns rest st tr

/-- `get_persistent_volumes` of the collector, instrumented with the
trace of sampler invocations.  `gns` is the module-level `namespace`
variable the entry's `'namespace'` field refers to. -/
def get_persistent_volumes (sampler : J → J → J → String) (gns nr : J) :
    (Except String (List (J × J))) × List SampleCall :=
  match (do
    let items ← collectorItems nr
    filterE (fun x => do
      if optBeqStr (← jGet x "kind") "Pod" then
        pure (optBeqStr (← jGet (← jGetD x "status" (.obj [])) "phase") "Running")
      else
        pure false) items : Except String (List J)) with
  | .error e => (.error e, [])
  | .ok pods =>
    match pvPods sampler gns pods ⟨[], []⟩ [] with
    | (.error e, tr) => (.error e, tr)
    | (.ok st, tr) => (.ok st.persistent_volumes, tr)

/-! ### Server-side check plugin
(`mkp/lib/python3/cmk/base/plugins/agent_based/kubernetes_namespaces.py`)

Parsed namespace records are again `J` values: the agent emits Python
dict literals (string keys), and the server-side parser re-evaluates
them into dicts. -/

/-- Python `repr` restricted to the values we model (our strings need no
escaping or quote switching). -/
def pyRepr : J → String
  | .null => "None"
  | .bool b => if b then "True" else "False"
  | .num n => toString n
  | .str s => "'" ++ s ++ "'"
  | .list xs => "[" ++ pyReprList xs ++ "]"
  | .obj fs => "\x7b" ++ pyReprObj fs ++ "\x7d"
where
  pyReprList : List J → String
    | [] => ""
    | [x] => pyRepr x
    | x :: xs => pyRepr x ++ ", " ++ pyReprList xs
  pyReprObj : List (String × J) → String
    | [] => ""
    | [(k, v)] => "'" ++ k ++ "': " ++ pyRepr v
    | (k, v) :: xs => "'" ++ k ++ "': " ++ pyRepr v ++ ", " ++ pyReprObj xs

/-- Python `str` / f-string interpolation of a value. -/
def pyStr : J → String
  | .str s => s
  | v => pyRepr v

/-- Python `int(v)` on a record value. -/
def pyIntOfJ (v : J) : Except String Int :=
  match v with
  | .num n => .ok n
  | .bool b => .ok (if b then 1 else 0)
  | .str s => if pyIsDigit s then .ok (pyToNat s : Int) else .error "ValueError: int"
  | _ => .error "TypeError: int"

/-- Python `v >= n` for an int `n` (`TypeError` on non-numbers). -/
def jGeIntE (v : J) (n : Int) : Except String Bool :=
  match v with
  | .num m => .ok (decide (n ≤ m))
  | .bool b => .ok (decide (n ≤ (if b then (1 : Int) else 0)))
  | _ => .error "TypeError: not supported between instances"

/-- Python `v > n` for an int `n`. -/
def jGtIntE (v : J) (n : Int) : Except String Bool :=
  match v with
  | .num m => .ok (decide (n < m))
  | .bool b => .ok (decide (n < (if b then (1 : Int) else 0)))
  | _ => .error "TypeError: not supported between instances"

/-- Python `v > q` for a float threshold `q`. -/
def jGtQE (v : J) (q : ℚ) : Except String Bool :=
  match v with
  | .num m => .ok (decide (q < (m : ℚ)))
  | .bool b => .ok (decide (q < (if b then (1 : ℚ) else 0)))
  | _ => .error "TypeError: not supported between instances"

/-- Python `n + v` for an int accumulator `n` (the replicaset block's
`+=`). -/
def pyAddIntJ (n : Int) (v : J) : Except String Int :=
  match v with
  | .num m => .ok (n + m)
  | .bool b => .ok (n + (if b then 1 else 0))
  | _ => .error "TypeError: unsupported operand"

/-- `bytes_to_human_readable` of the check plugin: binary-scaled units
with two-decimal binary64 formatting. -/
def bytes_to_human_readable (v : J) : Except String String := do
  let b ← pyIntOfJ v
  if b < 1024 then pure (toString b ++ " B")
  else if b < 1024 ^ 2 then pure (bytesHumanFmt b.toNat 1 ++ " KB")
  else if b < 1024 ^ 3 then pure (bytesHumanFmt b.toNat 2 ++ " MB")
  else if b < 1024 ^ 4 then pure (bytesHumanFmt b.toNat 3 ++ " GB")
  else pure (bytesHumanFmt b.toNat 4 ++ " TB")

/-- Monitoring state of a check result. -/
inductive CheckState where
  | ok
  | warn
  | crit
deriving DecidableEq

/-- A `Metric(...)` yielded by the check function.  `levels` only ever
holds the two configured float thresholds; `boundaries` is always
`(0.0, hi)` where `hi` is a record value or the literal `100.0`
(represented by the numeral `100`). -/
structure Metric where
  name : String
  value : J
  levels : Option (ℚ × ℚ) := none
  boundaries : Option (ℚ × J) := none

/-- One yielded object of the check function. -/
inductive Output where
  | metric (m : Metric)
  | result (state : CheckState) (summary : String)

/-- A `Service(item=...)` yielded by discovery. -/
structure Service where
  item : String
deriving DecidableEq

/-- `SEPARATOR` of the check plugin. -/
def SEPARATOR : String := " / "

/-- `SIMPLE_KUBERNETES_OBJECTS` of the check plugin. -/
def SIMPLE_KUBERNETES_OBJECTS : List String := ["pods"]

/-- Map in `Except`, left to right. -/
def mapE (f : α → Except String β) : List α → Except String (List β)
  | [] => .ok []
  | x :: xs => do pure ((← f x) :: (← mapE f xs))

/-- Concat-map in `Except`, left to right (models nested `yield from`
loops collected into a list). -/
def concatMapE (f : α → Except String (List β)) : List α → Except String (List β)
  | [] => .ok []
  | x :: xs => do pure ((← f x) ++ (← concatMapE f xs))

/-! #### Record parser -/

/-- `parse_kubernetes_namespaces`, parameterised by the external
expression evaluator (`eval`); an evaluator result of `none` models a
raised exception.  On the first raising line the function logs the
exception and returns `list()` — the accumulated lines are discarded. -/
def parseAux (evalPy : String → Option J) : List (List String) → List J → List J
  | [], acc => acc.reverse
  | line :: rest, acc =>
    if 0 < line.length then
      match evalPy (line.headD "") with
      | some v => parseAux evalPy rest (v :: acc)
      | none => []
    else
      parseAux evalPy rest acc

/-- The record parser of the check plugin. -/
def parse_kubernetes_namespaces (evalPy : String → Option J)
    (string_table : List (List String)) : List J :=
  parseAux evalPy string_table []

/-! #### Discovery engine -/

/-- `' / '.join(pieces)` where the namespace name comes from the record
(a `TypeError` when it is not a string). -/
def pyJoinNs (nsname : J) (rest : List String) : Except String String :=
  match nsname with
  | .str s => .ok (String.intercalate SEPARATOR (s :: rest))
  | _ => .error "TypeError: sequence item 0"

/-- `_discover_service_in_namespace` of the check plugin. -/
def _discover_service_in_namespace (kubernetes_object : J)
    (kubernetes_object_name : String) (namespace_name : J) :
    Except String (List Service) :=
  if !(SIMPLE_KUBERNETES_OBJECTS.contains kubernetes_object_name) then
    match kubernetes_object with
    | .obj fs => mapE (fun p => do
        pure ⟨← pyJoinNs namespace_name [kubernetes_object_name, p.1]⟩) fs
    | _ => .error "AttributeError: items"
  else
    if jTruthy kubernetes_object then do
      pure [⟨← pyJoinNs namespace_name [kubernetes_object_name]⟩]
    else
      pure []

/-- `_get_namespaces_from_parameters` of the check plugin: the set of
`namespace` values of the rules, with `None` (from rules lacking the
field, or carrying an explicit `None`) removed.  Set-ness is irrelevant
downstream (only membership is tested), so the values are kept as a
list. -/
def _get_namespaces_from_parameters (parameters : List J) : Except String (List J) := do
  let vals ← mapE (fun p => do pure (optToJ (← jGet p "namespace"))) parameters
  pure (vals.filter (fun v => !jBeq v .null))

/-- The inner `for parameter, parameter_discovery in rule.items()` loop
of the discovery engine. -/
def discoverRuleFlags (rule : J) (kubernetes_object_name : String)
    (kubernetes_object : J) (namespace_name : J) : Except String (List Service) :=
  match rule with
  | .obj fs => concatMapE (fun p =>
      if p.1 == kubernetes_object_name && jTruthy p.2 then
        _discover_service_in_namespace kubernetes_object kubernetes_object_name namespace_name
      else
        pure []) fs
  | _ => .error "AttributeError: items"

/-- The `for namespace_parameters_single in namespace_parameters` loop of
the discovery engine, for one resource kind of one record. -/
def discoverKindWithRules (namespace_parameters : List J)
    (namespaces_from_parameters : List J) (namespace_name : J)
    (kubernetes_object_name : String) (kubernetes_object : J) :
    Except String (List Service) :=
  concatMapE (fun rule => do
    let rns ← jGet rule "namespace"
    if optTruthy rns && jBeq (optToJ rns) namespace_name then
      discoverRuleFlags rule kubernetes_object_name kubernetes_object namespace_name
    else if !optTruthy rns && !(namespaces_from_parameters.any (fun v => jBeq namespace_name v)) then
      discoverRuleFlags rule kubernetes_object_name kubernetes_object namespace_name
    else
      pure []) namespace_parameters

/-- `discover_kubernetes_namespaces` of the check plugin.
`namespace_parameters` is `params.get('kubernetes_namespaces')` (the
empty list doubles for the absent key: both are falsy). -/
def discover_kubernetes_namespaces (namespace_parameters : List J)
    (sect : List J) : Except String (List Service) :=
  concatMapE (fun section_namespace =>
    match section_namespace with
    | .obj fs =>
      -- `section_namespace != 'check_mk'` is trivially true on a dict,
      -- kept for fidelity
      if !jBeq section_namespace (.str "check_mk") && optTruthy (jLookup fs "name") then
        let namespace_name := optToJ (jLookup fs "name")
        concatMapE (fun p =>
          if p.1 != "name" then
            if namespace_parameters.isEmpty then
              _discover_service_in_namespace p.2 p.1 namespace_name
            else do
              let namespaces_from_parameters ← _get_namespaces_from_parameters namespace_parameters
              discoverKindWithRules namespace_parameters namespaces_from_parameters
                namespace_name p.1 p.2
          else
            pure []) fs
      else
        pure []
    | _ => pure []) sect

/-! #### Check evaluator -/

/-- Processing of one `(kubernetes_object_name, kubernetes_object)` pair
of the located namespace record inside `check_kubernetes_namespaces`:
the six sequential kind blocks, sharing the `state`/`summary` variables
(initialised to `State.OK` and `f'{kubernetes_object}'`), followed by
the single `Result` yield. -/
def checkKind (pvW pvC : ℚ) (cjW cjC : Int) (parts : List String)
    (kubernetes_object_name : String) (kubernetes_object : J) :
    Except String (List Output) := do
  if kubernetes_object_name == "name" then pure [] else do
  let kubernetes_object_from_item ←
    (if SIMPLE_KUBERNETES_OBJECTS.contains kubernetes_object_name then
      pure (parts.getLastD "")
    else
      idxLast2 parts)
  if kubernetes_object_name == kubernetes_object_from_item then do
    if !jTruthy kubernetes_object then pure [] else do
    let resource_name := parts.getLastD ""
    let summary0 := pyStr kubernetes_object
    let state0 := CheckState.ok
    let kubernetes_object_single_name := parts.getLastD ""
    -- cronjobs
    let (out1, state1, summary1) ←
      (if kubernetes_object_name == "cronjobs" then do
        let cronjob ← jGetD kubernetes_object kubernetes_object_single_name (.obj [])
        let active ← jGetD cronjob "active" (.num 0)
        let stA := if (← jGeIntE active cjW) then CheckState.warn else state0
        let stB := if (← jGeIntE active cjC) then CheckState.crit else stA
        pure ([Output.metric ⟨"cronjobs_active", active, none, none⟩],
          stB, "active: " ++ pyStr active)
      else pure (([] : List Output), state0, summary0))
    -- daemonsets
    let (out2, state2, summary2) ←
      (if kubernetes_object_name == "daemonsets" then do
        let daemonset ← jGetD kubernetes_object kubernetes_object_single_name (.obj [])
        let current_number_scheduled ← jGetD daemonset "current_number_scheduled" (.num 0)
        let desired_number_scheduled ← jGetD daemonset "desired_number_scheduled" (.num 0)
        let number_ready ← jGetD daemonset "number_ready" (.num 0)
        let number_unavailable ← jGetD daemonset "number_unavailable" (.num 0)
        let summary := "current: " ++ pyStr current_number_scheduled ++
          ", desired: " ++ pyStr desired_number_scheduled ++
          ", ready: " ++ pyStr number_ready ++
          ", unavailable: " ++ pyStr number_unavailable
        let st := if (← jGtIntE number_unavailable 0) then CheckState.crit else state1
        pure ([Output.metric ⟨"daemonsets_current_number_scheduled", current_number_scheduled, none, none⟩,
          Output.metric ⟨"daemonsets_desired_number_scheduled", desired_number_scheduled, none, none⟩,
          Output.metric ⟨"daemonsets_number_ready", number_ready, none, none⟩,
          Output.metric ⟨"daemonsets_number_unavailable", number_unavailable, none, none⟩],
          st, summary)
      else pure (([] : List Output), state1, summary1))
    -- deployments
    let (out3, state3, summary3) ←
      (if kubernetes_object_name == "deployments" then do
        let deployment ← jGetD kubernetes_object kubernetes_object_single_name (.obj [])
        let replicas ← jGetD deployment "replicas" (.num 0)
        let ready_replicas ← jGetD deployment "ready_replicas" (.num 0)
        let unavailable_replicas ← jGetD deployment "unavailable_replicas" (.num 0)
        let summary := "replicas: " ++ pyStr replicas ++
          ", ready: " ++ pyStr ready_replicas ++
          ", unavailable: " ++ pyStr unavailable_replicas
        let st := if !jBeq replicas ready_replicas then CheckState.crit else state2
        pure ([Output.metric ⟨"deployments_replicas", replicas, none, none⟩,
          Output.metric ⟨"deployments_ready_replicas", ready_replicas, none, none⟩,
          Output.metric ⟨"deployments_unavailable_replicas", unavailable_replicas, none, none⟩],
          st, summary)
      else pure (([] : List Output), state2, summary2))
    -- persistent_volumes
    let (out4, state4, summary4) ←
      (if kubernetes_object_name == "persistent_volumes" then do
        if optTruthy (← jGet kubernetes_object resource_name) then do
          let persistent_volume := optToJ (← jGet kubernetes_object resource_name)
          let capacity ← jGetD persistent_volume "capacity" (.num 0)
          let used ← jGetD persistent_volume "used" (.num 0)
          let percentage ← jGetD persistent_volume "percentage" (.num 0)
          let summary := "used: " ++ (← bytes_to_human_readable used) ++
            " capacity: " ++ (← bytes_to_human_readable capacity) ++
            " percentage: " ++ pyStr percentage ++ " %"
          let stA := if (← jGtQE percentage pvW) then CheckState.warn else state3
          let stB := if (← jGtQE percentage pvC) then CheckState.crit else stA
          pure ([Output.metric ⟨"persistent_volume_used", used, none, some (0, capacity)⟩,
            Output.metric ⟨"persistent_volume_capacity", capacity, none, some (0, capacity)⟩,
            -- the literal float boundary `100.0` is represented by the numeral 100
            Output.metric ⟨"persistent_volume_percentage", percentage,
              some (pvW, pvC), some (0, .num 100)⟩],
            stB, summary)
        else
          pure (([] : List Output), state3, summary3)
      else pure (([] : List Output), state3, summary3))
    -- pods
    let (out5, state5, summary5) ←
      (if kubernetes_object_name == "pods" then do
        let values ← (match kubernetes_object with
          | .obj fs => pure (fs.map (fun p => p.2))
          | _ => .error "AttributeError: values")
        let counts ← foldE (fun (c : Nat × Nat × Nat × Nat) pod => do
          let (crashing, running, terminated, waiting) := c
          let containers ← jGet pod "containers"
          if optTruthy containers then do
            let containers := optToJ containers
            let crashing := crashing + (← jLen (← jGetD containers "crashing" (.list [])))
            let running := running + (← jLen (← jGetD containers "running" (.list [])))
            let terminated := terminated + (← jLen (← jGetD containers "terminated" (.list [])))
            let waiting := waiting + (← jLen (← jGetD containers "waiting" (.list [])))
            pure (crashing, running, terminated, waiting)
          else
            pure c) ((0, 0, 0, 0) : Nat × Nat × Nat × Nat) values
        let (crashing, running, terminated, waiting) := counts
        let summary := "running: " ++ toString running ++ ", waiting: " ++ toString waiting ++
          ", terminated: " ++ toString terminated ++ ", crashing: " ++ toString crashing
        let st := if 0 < crashing then CheckState.crit else state4
        pure ([Output.metric ⟨"pods_running", .num (running : Int), none, none⟩,
          Output.metric ⟨"pods_waiting", .num (waiting : Int), none, none⟩,
          Output.metric ⟨"pods_crashing", .num (crashing : Int), none, none⟩,
          Output.metric ⟨"pods_terminated", .num (terminated : Int), none, none⟩],
          st, summary)
      else pure (([] : List Output), state4, summary4))
    -- replicasets
    let (out6, state6, summary6) ←
      (if kubernetes_object_name == "replicasets" then do
        let replicaset ← jGetD kubernetes_object kubernetes_object_single_name (.obj [])
        let replicas ← pyAddIntJ 0 (← jGetD replicaset "replicas" (.num 0))
        let ready_replicas ← pyAddIntJ 0 (← jGetD replicaset "ready_replicas" (.num 0))
        -- the record key is `available_replicas`; the check reads
        -- `unavailable_replicas`, which collector records never carry
        let unavailable_replicas ← pyAddIntJ 0 (← jGetD replicaset "unavailable_replicas" (.num 0))
        let summary := "replicas: " ++ toString replicas ++
          ", ready: " ++ toString ready_replicas ++
          ", unavailable: " ++ toString unavailable_replicas
        let st := if replicas ≠ ready_replicas then CheckState.crit else state5
        pure ([Output.metric ⟨"replicasets_replicas", .num replicas, none, none⟩,
          Output.metric ⟨"replicasets_ready_replicas", .num ready_replicas, none, none⟩,
          Output.metric ⟨"replicasets_unavailable_replicas", .num unavailable_replicas, none, none⟩],
          st, summary)
      else pure (([] : List Output), state5, summary5))
    pure (out1 ++ out2 ++ out3 ++ out4 ++ out5 ++ out6 ++
      [Output.result state6 summary6])
  else
    pure []

/-- `check_kubernetes_namespaces` of the check plugin.  The thresholds
are the unpacked `params['percentage_persistent_volumes']` (floats) and
`params['threshold_cronjob_count']` (ints); checkmk supplies them merged
with the registered defaults `(80.0, 90.0)` and `(2, 3)`. -/
def check_kubernetes_namespaces (item : String) (pvW pvC : ℚ) (cjW cjC : Int)
    (sect : List J) : Except String (List Output) := do
  let parts := pySplit item SEPARATOR
  let namespace_name := parts.headD ""
  let namespace_list ← filterE (fun x => do
    pure (optBeqStr (← jGet x "name") namespace_name)) sect
  match namespace_list.head? with
  | none => pure []
  | some nsrec =>
    match nsrec with
    | .obj fs => concatMapE (fun p => checkKind pvW pvC cjW cjC parts p.1 p.2) fs
    | _ => .error "AttributeError: items"

/-- A namespace record as assembled by the collector's `as_dict` (the
wire shape the parser re-creates). -/
def mkRecord (name : String) (pods persistent_volumes deployments daemonsets
    replicasets cronjobs : List (String × J)) : J :=
  .obj [
    ("name", .str name),
    ("pods", .obj pods),
    ("persistent_volumes", .obj persistent_volumes),
    ("deployments", .obj deployments),
    ("daemonsets", .obj daemonsets),
    ("replicasets", .obj replicasets),
    ("cronjobs", .obj cronjobs)]

/-! ### Concrete fixtures used by witnesses and counterexamples -/

/-- A pod whose single container mounts one persistent-volume claim
`claim` under the volume name `vol` at `/data`, in phase `Running`. -/
def pvPod (pname : String) : J :=
  .obj [
    ("kind", .str "Pod"),
    ("metadata", .obj [("name", .str pname), ("namespace", .str "ns")]),
    ("status", .obj [("phase", .str "Running")]),
    ("spec", .obj [
      ("volumes", .list [.obj [("name", .str "vol"),
        ("persistentVolumeClaim", .obj [("claimName", .str "claim")])]]),
      ("containers", .list [.obj [("name", .str "c"),
        ("volumeMounts", .list [.obj [("name", .str "vol"), ("mountPath", .str "/data")]])]])])]

/-- Two running pods sharing the one claim under the same volume name. -/
def dumpSharedPvc : J := .obj [("items", .list [pvPod "pod1", pvPod "pod2"])]

/-- A single running pod with the shared-claim layout. -/
def dumpOnePvPod : J := .obj [("items", .list [pvPod "pod1"])]

/-- Sampler returning a `df` report of 1000 KiB capacity, 950 used. -/
def samplerDf950 : J → J → J → String := fun _ _ _ =>
  "Filesystem 1K-blocks Used Available Use% Mounted on\n/dev/sda1 1000 950 50 95% /data\n"

/-- Sampler returning a `df` report of 100 KiB capacity, 29 used. -/
def samplerDf29 : J → J → J → String := fun _ _ _ =>
  "/dev/sda1 100 29 71 29% /data"

/-- A resource item carrying no fields at all (in particular no `kind`). -/
def dumpNoKind : J := .obj [("items", .list [.obj []])]

/-- A replicaset item with a `kind` but no `metadata`. -/
def dumpRsNoMetadata : J := .obj [("items", .list [.obj [("kind", .str "ReplicaSet")]])]

/-- A pod item with container statuses but no `metadata`. -/
def dumpPodNoMetadata : J :=
  .obj [("items", .list [.obj [
    ("kind", .str "Pod"),
    ("status", .obj [("containerStatuses", .list [.obj [
      ("name", .str "c"),
      ("state", .obj [("waiting", .obj [("reason", .str "ContainerCreating")])])]])])]])]

/-- A replicaset whose first owner reference is of kind `Deployment`
(and whose owning deployment appears nowhere in the dump). -/
def rsOwnedByDeployment : J :=
  .obj [
    ("kind", .str "ReplicaSet"),
    ("metadata", .obj [("name", .str "owned"),
      ("ownerReferences", .list [.obj [("kind", .str "Deployment"), ("name", .str "dep")]])]),
    ("status", .obj [("replicas", .num 1), ("readyReplicas", .num 1)])]

/-- A replicaset without any owner reference. -/
def rsStandalone : J :=
  .obj [
    ("kind", .str "ReplicaSet"),
    ("metadata", .obj [("name", .str "free")]),
    ("status", .obj [("replicas", .num 2), ("readyReplicas", .num 2)])]

/-- A dump holding both replicasets and no deployment at all. -/
def dumpReplicasets : J := .obj [("items", .list [rsOwnedByDeployment, rsStandalone])]

/-- The record the well-formed parser line evaluates to. -/
def goodRecord : J := mkRecord "good" [] [] [] [] [] []

/-- The external `eval` of the parser restricted to this run's input:
the line `rec` evaluates to `goodRecord`, every other line raises. -/
def evalFixture : String → Option J := fun s =>
  if s == "rec" then some goodRecord else none

/-- A namespace record with a single cronjob `cj` with the given active
count. -/
def cronRecord (active : Int) : J :=
  mkRecord "ns" [] [] [] [] [] [("cj", .obj [("active", .num active)])]

/-- A namespace record with a single deployment `d`. -/
def depRecord (replicas ready_replicas unavailable_replicas : Int) : J :=
  mkRecord "ns" [] [] [("d", .obj [
    ("replicas", .num replicas),
    ("ready_replicas", .num ready_replicas),
    ("unavailable_replicas", .num unavailable_replicas)])] [] [] []

/-- A namespace record with a single persistent-volume entry `claim`. -/
def pvRecord (percentage capacity used available : Int) : J :=
  mkRecord "ns" [] [("claim", .obj [
    ("namespace", .str "ns"),
    ("pvc", .str "claim"),
    ("percentage", .num percentage),
    ("capacity", .num capacity),
    ("used", .num used),
    ("available", .num available)])] [] [] [] []

/-- Discovery rule `{namespace: 'A', pods: True}`. -/
def ruleNamespaceA : J := .obj [("namespace", .str "A"), ("pods", .bool true)]

/-- Default discovery rule `{pods: True}` (no namespace field). -/
def rulePodsDefault : J := .obj [("pods", .bool true)]

/-- The fields of the record for namespace `B` (non-empty pod
summary). -/
def recordBFields : List (String × J) :=
  [("name", .str "B"),
   ("pods", .obj [("p1", .obj [("containers", .obj [
     ("crashing", .list []),
     ("running", .list [.str "c"]),
     ("waiting", .list []),
     ("terminated", .list [])])])]),
   ("persistent_volumes", .obj []),
   ("deployments", .obj []),
   ("daemonsets", .obj []),
   ("replicasets", .obj []),
   ("cronjobs", .obj [])]

/-- A record for namespace `B` with a non-empty pod summary. -/
def recordB : J := .obj recordBFields

/-- Shape invariant of recorded persistent-volume entries: byte values
are 1024-scaled block counts and the percentage is the binary64
computation on them. -/
def PvEntryShape (gns : J) (kv : J × J) : Prop :=
  ∃ (c u a : Nat), c ≠ 0 ∧
    kv.2 = J.obj [
      ("namespace", gns),
      ("pvc", kv.1),
      ("percentage", .num (pyPercent (u * 1024) (c * 1024))),
      ("capacity", .num ((c * 1024 : Nat) : Int)),
      ("used", .num ((u * 1024 : Nat) : Int)),
      ("available", .num ((a * 1024 : Nat) : Int))]

/-- Sampler whose output parses to no usable `df` row (the header line
has seven fields and is skipped), modelling a sampling attempt whose
parsing fails. -/
def samplerHeaderOnly : J → J → J → String := fun _ _ _ =>
  "Filesystem 1K-blocks Used Available Use% Mounted on"

/-- The states of the `Result`s among the yielded outputs. -/
def resultStates (outs : List Output) : List CheckState :=
  outs.filterMap (fun o => match o with
    | .result st _ => some st
    | .metric _ => none)

/-- The names of the `Metric`s among the yielded outputs. -/
def metricNames (outs : List Output) : List String :=
  outs.filterMap (fun o => match o with
    | .metric m => some m.name
    | .result _ _ => none)

/-- Key lookup on a value, `none` when it is not a dict. -/
def objLookup : J → String → Option J
  | .obj fs, k => jLookup fs k
  | _, _ => none

/-- The first element of a list value. -/
def firstElem : J → Option J
  | .list (x :: _) => some x
  | _ => none

/-- Whether an item's first owner reference (under `metadata`) is of
kind `Deployment`. -/
def firstOwnerIsDeployment (i : J) : Bool :=
  match ((objLookup i "metadata").bind
      (fun m => objLookup m "ownerReferences")).bind firstElem with
  | some owner =>
    match objLookup owner "kind" with
    | some v => jBeq v (.str "Deployment")
    | none => false
  | none => false

/-! ## Helper lemmas -/

mutual

theorem jBeq_iff : ∀ (a b : J), jBeq a b = true ↔ a = b
  | .null, b => by cases b <;> simp [jBeq]
  | .bool x, b => by cases b <;> simp [jBeq]
  | .num x, b => by cases b <;> simp [jBeq]
  | .str x, b => by cases b <;> simp [jBeq]
  | .list xs, b => by
    cases b <;> simp [jBeq]
    exact jBeqList_iff xs _
  | .obj fs, b => by
    cases b <;> simp [jBeq]
    exact jBeqObj_iff fs _

theorem jBeqList_iff : ∀ (xs ys : List J), jBeq.jBeqList xs ys = true ↔ xs = ys
  | [], ys => by cases ys <;> simp [jBeq.jBeqList]
  | x :: xs, ys => by
    cases ys with
    | nil => simp [jBeq.jBeqList]
    | cons y ys =>
      simp [jBeq.jBeqList, Bool.and_eq_true, jBeq_iff x y, jBeqList_iff xs ys]

theorem jBeqObj_iff : ∀ (xs ys : List (String × J)), jBeq.jBeqObj xs ys = true ↔ xs = ys
  | [], ys => by cases ys <;> simp [jBeq.jBeqObj]
  | (k, x) :: xs, ys => by
    cases ys with
    | nil => simp [jBeq.jBeqObj]
    | cons p ys =>
      cases p with
      | mk l y =>
        simp [jBeq.jBeqObj, Bool.and_eq_true, jBeq_iff x y, jBeqObj_iff xs ys, and_assoc]

end

theorem jBeq_eq_false_iff (a b : J) : jBeq a b = false ↔ a ≠ b := by
  rw [← Bool.not_eq_true, not_iff_not]
  exact jBeq_iff a b

theorem ok_bind (a : α) (f : α → Except String β) :
    (Except.ok a : Except String α) >>= f = f a := rfl

theorem concatMapE_cons (f : α → Except String (List β)) (x : α) (xs : List α) :
    concatMapE f (x :: xs)
      = (f x) >>= (fun ys => (concatMapE f xs) >>= (fun rest => .ok (ys ++ rest))) := rfl

theorem concatMapE_nil (f : α → Except String (List β)) : concatMapE f [] = .ok [] := rfl

/-- Membership in a successful `concatMapE` comes from one input element. -/
theorem mem_concatMapE (f : α → Except String (List β)) :
    ∀ (l : List α) (ys : List β) (y : β), concatMapE f l = .ok ys → y ∈ ys →
      ∃ x ∈ l, ∃ zs, f x = .ok zs ∧ y ∈ zs := by
  intro l
  induction l with
  | nil =>
    intro ys y h hy
    cases h
    cases hy
  | cons x xs ih =>
    intro ys y h hy
    rw [concatMapE_cons] at h
    cases hfx : f x with
    | error e => rw [hfx] at h; cases h
    | ok zs =>
      rw [hfx] at h
      cases hrest : concatMapE f xs with
      | error e => rw [hrest] at h; cases h
      | ok ws =>
        rw [hrest] at h
        cases h
        rcases List.mem_append.mp hy with hz | hw
        · exact ⟨x, List.mem_cons_self x xs, zs, hfx, hz⟩
        · rcases ih ws y hrest hw with ⟨x2, hx2, zs2, hf2, hy2⟩
          exact ⟨x2, List.mem_cons_of_mem x hx2, zs2, hf2, hy2⟩

/-- Every binding of a successful `foldSteps` run beyond the initial
accumulator was produced by the step function on some input item. -/
theorem mem_foldSteps (step : J → Except String (Option (J × J))) :
    ∀ (l : List J) (acc s : List (J × J)), foldSteps step l acc = .ok s →
      ∀ kv ∈ s, kv ∈ acc ∨ ∃ i ∈ l, step i = .ok (some kv) := by
  intro l
  induction l with
  | nil =>
    intro acc s h kv hkv
    cases h
    exact Or.inl hkv
  | cons x xs ih =>
    intro acc s h kv hkv
    rw [foldSteps] at h
    cases hsx : step x with
    | error e => rw [hsx] at h; cases h
    | ok o =>
      rw [hsx] at h
      cases o with
      | none =>
        rcases ih acc s h kv hkv with hin | ⟨i, hi, hstep⟩
        · exact Or.inl hin
        · exact Or.inr ⟨i, List.mem_cons_of_mem x hi, hstep⟩
      | some p =>
        rcases ih (jDictInsert acc p.1 p.2) s h kv hkv with hin | ⟨i, hi, hstep⟩
        · unfold jDictInsert at hin
          split at hin
          · rcases List.mem_map.mp hin with ⟨q, hq, hqe⟩
            by_cases hb : jBeq q.1 p.1 = true
            · rw [if_pos hb] at hqe
              subst hqe
              exact Or.inr ⟨x, List.mem_cons_self x xs, by rw [hsx]⟩
            · rw [if_neg hb] at hqe
              subst hqe
              exact Or.inl hq
          · rcases List.mem_append.mp hin with hq | hq
            · exact Or.inl hq
            · rcases List.mem_singleton.mp hq with rfl
              exact Or.inr ⟨x, List.mem_cons_self x xs, by rw [hsx]⟩
        · exact Or.inr ⟨i, List.mem_cons_of_mem x hi, hstep⟩

theorem jGetD_obj (fs : List (String × J)) (k : String) (d : J) :
    jGetD (.obj fs) k d = .ok ((jLookup fs k).getD d) := by
  simp only [jGetD, jGet, Except.bind]
  cases jLookup fs k <;> rfl

/-! ## Claim theorems -/

/-- C2: the claim says every extractor returns a summary without raising
on entries with missing nested fields.  The code contradicts this (and
the error-handling design of treating absent data as "not present"): an
entry lacking `kind` raises `KeyError` in `get_deployments` (the filter
uses `x['kind']`, unlike `get_persistent_volumes`, whose filter uses
`x.get('kind')` and tolerates the same dump); a `ReplicaSet` entry
without `metadata` raises in `get_replicasets`; a `Pod` entry with
container statuses but no `metadata` raises in `get_pods`.  This theorem
evaluates the extractors at those failing inputs. -/
theorem extractor_raises_on_malformed_entry :
    get_deployments dumpNoKind = .error "KeyError" ∧
    get_replicasets dumpRsNoMetadata = .error "KeyError" ∧
    get_pods dumpPodNoMetadata = .error "KeyError" ∧
    (get_persistent_volumes (fun _ _ _ => "") (.str "ns") dumpNoKind).1 = .ok [] :=
  ⟨rfl, rfl, rfl, rfl⟩

/-- C6: a cronjob item evaluation with thresholds `(w, c)`, `w ≤ c`, and
active count `a` yields one active-count metric and one `Result` whose
state is CRIT if `a ≥ c`, else WARN if `a ≥ w`, else OK (the CRIT
comparison is evaluated after the WARN one, so CRIT overrides). -/
theorem cronjob_threshold_states (w c a : Int) (hwc : w ≤ c) :
    check_kubernetes_namespaces "ns / cronjobs / cj" 80 90 w c [cronRecord a]
      = .ok [.metric ⟨"cronjobs_active", .num a, none, none⟩,
             .result (if c ≤ a then .crit else if w ≤ a then .warn else .ok)
               ("active: " ++ toString a)] := by
  have hcore :
      check_kubernetes_namespaces "ns / cronjobs / cj" 80 90 w c [cronRecord a]
        = .ok [.metric ⟨"cronjobs_active", .num a, none, none⟩,
               .result (if decide (c ≤ a) then .crit else if decide (w ≤ a) then .warn else .ok)
                 ("active: " ++ toString a)] := rfl
  rw [hcore]
  by_cases hc : c ≤ a <;> by_cases hw : w ≤ a <;> simp [hc, hw]

/-- C6 witness: with the registered default thresholds `(2, 3)`,
`active=2` yields WARN, `active=3` yields CRIT and `active=1` yields
OK. -/
theorem cronjob_threshold_states_witness :
    check_kubernetes_namespaces "ns / cronjobs / cj" 80 90 2 3 [cronRecord 2]
      = .ok [.metric ⟨"cronjobs_active", .num 2, none, none⟩, .result .warn "active: 2"] ∧
    check_kubernetes_namespaces "ns / cronjobs / cj" 80 90 2 3 [cronRecord 3]
      = .ok [.metric ⟨"cronjobs_active", .num 3, none, none⟩, .result .crit "active: 3"] ∧
    check_kubernetes_namespaces "ns / cronjobs / cj" 80 90 2 3 [cronRecord 1]
      = .ok [.metric ⟨"cronjobs_active", .num 1, none, none⟩, .result .ok "active: 1"] :=
  ⟨by simpa using cronjob_threshold_states 2 3 2 (by norm_num),
   by simpa using cronjob_threshold_states 2 3 3 (by norm_num),
   by simpa using cronjob_threshold_states 2 3 1 (by norm_num)⟩

/-- C9: a named deployment item yields the three fixed-name metrics and
one `Result` whose state is CRIT exactly when `replicas ≠
ready_replicas`, with the fixed-order summary; in particular
`replicas=3, ready_replicas=3` gives OK with summary
`"replicas: 3, ready: 3, unavailable: 0"` and `ready_replicas=2` gives
CRIT with unchanged metric names. -/
theorem deployment_named_item_states :
    (∀ r rr ur : Int,
      check_kubernetes_namespaces "ns / deployments / d" 80 90 2 3 [depRecord r rr ur]
        = .ok [.metric ⟨"deployments_replicas", .num r, none, none⟩,
               .metric ⟨"deployments_ready_replicas", .num rr, none, none⟩,
               .metric ⟨"deployments_unavailable_replicas", .num ur, none, none⟩,
               .result (if r = rr then .ok else .crit)
                 ("replicas: " ++ toString r ++ ", ready: " ++ toString rr ++
                  ", unavailable: " ++ toString ur)]) ∧
    check_kubernetes_namespaces "ns / deployments / d" 80 90 2 3 [depRecord 3 3 0]
      = .ok [.metric ⟨"deployments_replicas", .num 3, none, none⟩,
             .metric ⟨"deployments_ready_replicas", .num 3, none, none⟩,
             .metric ⟨"deployments_unavailable_replicas", .num 0, none, none⟩,
             .result .ok "replicas: 3, ready: 3, unavailable: 0"] ∧
    check_kubernetes_namespaces "ns / deployments / d" 80 90 2 3 [depRecord 3 2 0]
      = .ok [.metric ⟨"deployments_replicas", .num 3, none, none⟩,
             .metric ⟨"deployments_ready_replicas", .num 2, none, none⟩,
             .metric ⟨"deployments_unavailable_replicas", .num 0, none, none⟩,
             .result .crit "replicas: 3, ready: 2, unavailable: 0"] := by
  refine ⟨fun r rr ur => ?_, rfl, rfl⟩
  have hcore :
      check_kubernetes_namespaces "ns / deployments / d" 80 90 2 3 [depRecord r rr ur]
        = .ok [.metric ⟨"deployments_replicas", .num r, none, none⟩,
               .metric ⟨"deployments_ready_replicas", .num rr, none, none⟩,
               .metric ⟨"deployments_unavailable_replicas", .num ur, none, none⟩,
               .result (if !(r == rr) then .crit else .ok)
                 ("replicas: " ++ toString r ++ ", ready: " ++ toString rr ++
                  ", unavailable: " ++ toString ur)] := rfl
  rw [hcore]
  by_cases h : r = rr <;> simp [h]

/-- The deployments block on a map missing the addressed name. -/
theorem checkKind_deployments_missing (m : List (String × J)) (hne : m.isEmpty = false)
    (hmiss : jLookup m "missing" = none) :
    checkKind 80 90 2 3 ["ns", "deployments", "missing"] "deployments" (.obj m)
      = .ok [.metric ⟨"deployments_replicas", .num 0, none, none⟩,
             .metric ⟨"deployments_ready_replicas", .num 0, none, none⟩,
             .metric ⟨"deployments_unavailable_replicas", .num 0, none, none⟩,
             .result .ok "replicas: 0, ready: 0, unavailable: 0"] := by
  have hlast : (["ns", "deployments", "missing"] : List String).getLastD "" = "missing" := rfl
  unfold checkKind
  simp only [hlast, jGetD_obj, hmiss, jTruthy, hne]
  rfl

/-- The daemonsets block on a map missing the addressed name. -/
theorem checkKind_daemonsets_missing (m : List (String × J)) (hne : m.isEmpty = false)
    (hmiss : jLookup m "missing" = none) :
    checkKind 80 90 2 3 ["ns", "daemonsets", "missing"] "daemonsets" (.obj m)
      = .ok [.metric ⟨"daemonsets_current_number_scheduled", .num 0, none, none⟩,
             .metric ⟨"daemonsets_desired_number_scheduled", .num 0, none, none⟩,
             .metric ⟨"daemonsets_number_ready", .num 0, none, none⟩,
             .metric ⟨"daemonsets_number_unavailable", .num 0, none, none⟩,
             .result .ok "current: 0, desired: 0, ready: 0, unavailable: 0"] := by
  have hlast : (["ns", "daemonsets", "missing"] : List String).getLastD "" = "missing" := rfl
  unfold checkKind
  simp only [hlast, jGetD_obj, hmiss, jTruthy, hne]
  rfl

/-- The replicasets block on a map missing the addressed name. -/
theorem checkKind_replicasets_missing (m : List (String × J)) (hne : m.isEmpty = false)
    (hmiss : jLookup m "missing" = none) :
    checkKind 80 90 2 3 ["ns", "replicasets", "missing"] "replicasets" (.obj m)
      = .ok [.metric ⟨"replicasets_replicas", .num 0, none, none⟩,
             .metric ⟨"replicasets_ready_replicas", .num 0, none, none⟩,
             .metric ⟨"replicasets_unavailable_replicas", .num 0, none, none⟩,
             .result .ok "replicas: 0, ready: 0, unavailable: 0"] := by
  have hlast : (["ns", "replicasets", "missing"] : List String).getLastD "" = "missing" := rfl
  unfold checkKind
  simp only [hlast, jGetD_obj, hmiss, jTruthy, hne]
  rfl

/-- C10: evaluating an item that addresses a single named resource of
kind deployments, daemonsets or replicasets whose name is absent from
that kind's non-empty map still yields exactly one `Result`, with state
OK and all counters rendered as 0 (the `.get(name, {})` fallbacks turn
the missing entry into all-zero counters), rather than an error, an
UNKNOWN state, or no result. -/
theorem missing_named_resource_yields_ok_zero :
    (∀ m : List (String × J), m.isEmpty = false → jLookup m "missing" = none →
      check_kubernetes_namespaces "ns / deployments / missing" 80 90 2 3
        [mkRecord "ns" [] [] m [] [] []]
        = .ok [.metric ⟨"deployments_replicas", .num 0, none, none⟩,
               .metric ⟨"deployments_ready_replicas", .num 0, none, none⟩,
               .metric ⟨"deployments_unavailable_replicas", .num 0, none, none⟩,
               .result .ok "replicas: 0, ready: 0, unavailable: 0"]) ∧
    (∀ m : List (String × J), m.isEmpty = false → jLookup m "missing" = none →
      check_kubernetes_namespaces "ns / daemonsets / missing" 80 90 2 3
        [mkRecord "ns" [] [] [] m [] []]
        = .ok [.metric ⟨"daemonsets_current_number_scheduled", .num 0, none, none⟩,
               .metric ⟨"daemonsets_desired_number_scheduled", .num 0, none, none⟩,
               .metric ⟨"daemonsets_number_ready", .num 0, none, none⟩,
               .metric ⟨"daemonsets_number_unavailable", .num 0, none, none⟩,
               .result .ok "current: 0, desired: 0, ready: 0, unavailable: 0"]) ∧
    (∀ m : List (String × J), m.isEmpty = false → jLookup m "missing" = none →
      check_kubernetes_namespaces "ns / replicasets / missing" 80 90 2 3
        [mkRecord "ns" [] [] [] [] m []]
        = .ok [.metric ⟨"replicasets_replicas", .num 0, none, none⟩,
               .metric ⟨"replicasets_ready_replicas", .num 0, none, none⟩,
               .metric ⟨"replicasets_unavailable_replicas", .num 0, none, none⟩,
               .result .ok "replicas: 0, ready: 0, unavailable: 0"]) := by
  refine ⟨fun m hne hmiss => ?_, fun m hne hmiss => ?_, fun m hne hmiss => ?_⟩
  · have hstep : check_kubernetes_namespaces "ns / deployments / missing" 80 90 2 3
        [mkRecord "ns" [] [] m [] [] []]
        = concatMapE (fun p => checkKind 80 90 2 3 ["ns", "deployments", "missing"] p.1 p.2)
            [("name", J.str "ns"), ("pods", .obj []), ("persistent_volumes", .obj []),
             ("deployments", .obj m), ("daemonsets", .obj []), ("replicasets", .obj []),
             ("cronjobs", .obj [])] := rfl
    rw [hstep]
    simp only [concatMapE_cons, concatMapE_nil]
    have h1 : checkKind 80 90 2 3 ["ns", "deployments", "missing"] "name" (J.str "ns") = .ok [] := rfl
    have h2 : checkKind 80 90 2 3 ["ns", "deployments", "missing"] "pods" (J.obj []) = .ok [] := rfl
    have h3 : checkKind 80 90 2 3 ["ns", "deployments", "missing"] "persistent_volumes" (J.obj []) = .ok [] := rfl
    have h5 : checkKind 80 90 2 3 ["ns", "deployments", "missing"] "daemonsets" (J.obj []) = .ok [] := rfl
    have h6 : checkKind 80 90 2 3 ["ns", "deployments", "missing"] "replicasets" (J.obj []) = .ok [] := rfl
    have h7 : checkKind 80 90 2 3 ["ns", "deployments", "missing"] "cronjobs" (J.obj []) = .ok [] := rfl
    simp [h1, h2, h3, h5, h6, h7, checkKind_deployments_missing m hne hmiss, ok_bind]
  · have hstep : check_kubernetes_namespaces "ns / daemonsets / missing" 80 90 2 3
        [mkRecord "ns" [] [] [] m [] []]
        = concatMapE (fun p => checkKind 80 90 2 3 ["ns", "daemonsets", "missing"] p.1 p.2)
            [("name", J.str "ns"), ("pods", .obj []), ("persistent_volumes", .obj []),
             ("deployments", .obj []), ("daemonsets", .obj m), ("replicasets", .obj []),
             ("cronjobs", .obj [])] := rfl
    rw [hstep]
    simp only [concatMapE_cons, concatMapE_nil]
    have h1 : checkKind 80 90 2 3 ["ns", "daemonsets", "missing"] "name" (J.str "ns") = .ok [] := rfl
    have h2 : checkKind 80 90 2 3 ["ns", "daemonsets", "missing"] "pods" (J.obj []) = .ok [] := rfl
    have h3 : checkKind 80 90 2 3 ["ns", "daemonsets", "missing"] "persistent_volumes" (J.obj []) = .ok [] := rfl
    have h4 : checkKind 80 90 2 3 ["ns", "daemonsets", "missing"] "deployments" (J.obj []) = .ok [] := rfl
    have h6 : checkKind 80 90 2 3 ["ns", "daemonsets", "missing"] "replicasets" (J.obj []) = .ok [] := rfl
    have h7 : checkKind 80 90 2 3 ["ns", "daemonsets", "missing"] "cronjobs" (J.obj []) = .ok [] := rfl
    simp [h1, h2, h3, h4, h6, h7, checkKind_daemonsets_missing m hne hmiss, ok_bind]
  · have hstep : check_kubernetes_namespaces "ns / replicasets / missing" 80 90 2 3
        [mkRecord "ns" [] [] [] [] m []]
        = concatMapE (fun p => checkKind 80 90 2 3 ["ns", "replicasets", "missing"] p.1 p.2)
            [("name", J.str "ns"), ("pods", .obj []), ("persistent_volumes", .obj []),
             ("deployments", .obj []), ("daemonsets", .obj []), ("replicasets", .obj m),
             ("cronjobs", .obj [])] := rfl
    rw [hstep]
    simp only [concatMapE_cons, concatMapE_nil]
    have h1 : checkKind 80 90 2 3 ["ns", "replicasets", "missing"] "name" (J.str "ns") = .ok [] := rfl
    have h2 : checkKind 80 90 2 3 ["ns", "replicasets", "missing"] "pods" (J.obj []) = .ok [] := rfl
    have h3 : checkKind 80 90 2 3 ["ns", "replicasets", "missing"] "persistent_volumes" (J.obj []) = .ok [] := rfl
    have h4 : checkKind 80 90 2 3 ["ns", "replicasets", "missing"] "deployments" (J.obj []) = .ok [] := rfl
    have h5 : checkKind 80 90 2 3 ["ns", "replicasets", "missing"] "daemonsets" (J.obj []) = .ok [] := rfl
    have h7 : checkKind 80 90 2 3 ["ns", "replicasets", "missing"] "cronjobs" (J.obj []) = .ok [] := rfl
    simp [h1, h2, h3, h4, h5, h7, checkKind_replicasets_missing m hne hmiss, ok_bind]

/-- C10 witness: concrete one-entry maps under the name `other`. -/
theorem missing_named_resource_yields_ok_zero_witness :
    check_kubernetes_namespaces "ns / deployments / missing" 80 90 2 3
      [mkRecord "ns" [] [] [("other", .obj [("replicas", .num 1)])] [] [] []]
      = .ok [.metric ⟨"deployments_replicas", .num 0, none, none⟩,
             .metric ⟨"deployments_ready_replicas", .num 0, none, none⟩,
             .metric ⟨"deployments_unavailable_replicas", .num 0, none, none⟩,
             .result .ok "replicas: 0, ready: 0, unavailable: 0"] ∧
    check_kubernetes_namespaces "ns / daemonsets / missing" 80 90 2 3
      [mkRecord "ns" [] [] [] [("other", .obj [("number_ready", .num 1)])] [] []]
      = .ok [.metric ⟨"daemonsets_current_number_scheduled", .num 0, none, none⟩,
             .metric ⟨"daemonsets_desired_number_scheduled", .num 0, none, none⟩,
             .metric ⟨"daemonsets_number_ready", .num 0, none, none⟩,
             .metric ⟨"daemonsets_number_unavailable", .num 0, none, none⟩,
             .result .ok "current: 0, desired: 0, ready: 0, unavailable: 0"] ∧
    check_kubernetes_namespaces "ns / replicasets / missing" 80 90 2 3
      [mkRecord "ns" [] [] [] [] [("other", .obj [("replicas", .num 1)])] []]
      = .ok [.metric ⟨"replicasets_replicas", .num 0, none, none⟩,
             .metric ⟨"replicasets_ready_replicas", .num 0, none, none⟩,
             .metric ⟨"replicasets_unavailable_replicas", .num 0, none, none⟩,
             .result .ok "replicas: 0, ready: 0, unavailable: 0"] :=
  ⟨missing_named_resource_yields_ok_zero.1 [("other", .obj [("replicas", .num 1)])] rfl rfl,
   missing_named_resource_yields_ok_zero.2.1 [("other", .obj [("number_ready", .num 1)])] rfl rfl,
   missing_named_resource_yields_ok_zero.2.2 [("other", .obj [("replicas", .num 1)])] rfl rfl⟩

/-- C7: a persistent-volume item evaluation with thresholds
`(pv_warning, pv_critical)` and recorded percentage `p` yields one
`Result` whose state is CRIT if `p > pv_critical`, else WARN if
`p > pv_warning`, else OK (strict comparisons), alongside the three
fixed-name metrics; with the default thresholds `(80, 90)` the entry the
collector records for a volume with capacity 1000 and used 950 blocks
(percentage 95) yields CRIT. -/
theorem persistent_volume_threshold_states :
    (∀ (pvW pvC : ℚ) (p : Int),
      ∃ outs, check_kubernetes_namespaces "ns / persistent_volumes / claim" pvW pvC 2 3
          [pvRecord p 1024000 972800 51200] = .ok outs ∧
        resultStates outs
          = [if pvC < (p : ℚ) then .crit else if pvW < (p : ℚ) then .warn else .ok] ∧
        metricNames outs = ["persistent_volume_used", "persistent_volume_capacity",
          "persistent_volume_percentage"]) ∧
    check_kubernetes_namespaces "ns / persistent_volumes / claim" 80 90 2 3
      [pvRecord 95 1024000 972800 51200]
      = .ok [.metric ⟨"persistent_volume_used", .num 972800, none, some (0, .num 1024000)⟩,
             .metric ⟨"persistent_volume_capacity", .num 1024000, none, some (0, .num 1024000)⟩,
             .metric ⟨"persistent_volume_percentage", .num 95, some (80, 90), some (0, .num 100)⟩,
             .result .crit "used: 950.00 KB capacity: 1000.00 KB percentage: 95 %"] := by
  refine ⟨fun pvW pvC p => ⟨_, rfl, ?_, ?_⟩, rfl⟩
  · by_cases hc : pvC < (p : ℚ) <;> by_cases hw : pvW < (p : ℚ) <;>
      simp [resultStates, hc, hw]
  · rfl

/-- When every non-empty line evaluates, `parseAux` appends all parsed
values. -/
theorem parseAux_all_ok (ev : String → Option J) :
    ∀ (table : List (List String)) (acc : List J),
      (∀ l ∈ table, 0 < l.length → (ev (l.headD "")).isSome) →
        parseAux ev table acc
          = acc.reverse ++ table.filterMap
              (fun l => if 0 < l.length then ev (l.headD "") else none) := by
  intro table
  induction table with
  | nil => intro acc _; simp [parseAux]
  | cons x xs ih =>
    intro acc h
    by_cases hx : 0 < x.length
    · have hsome := h x (List.mem_cons_self x xs) hx
      cases hev : ev (x.headD "") with
      | none => rw [hev] at hsome; cases hsome
      | some v =>
        rw [parseAux, if_pos hx, hev]
        show parseAux ev xs (v :: acc) = _
        rw [ih (v :: acc) (fun l hl => h l (List.mem_cons_of_mem x hl)),
          List.filterMap_cons]
        have hev2 : ev (x.head?.getD "") = some v := by
          rw [← List.headD_eq_head?]; exact hev
        simp [hx, hev2]
    · rw [parseAux, if_neg hx, ih acc (fun l hl => h l (List.mem_cons_of_mem x hl)),
        List.filterMap_cons]
      simp [hx]

/-- One raising non-empty line makes `parseAux` return the empty list. -/
theorem parseAux_fails (ev : String → Option J) :
    ∀ (table : List (List String)) (l : List String), l ∈ table → 0 < l.length →
      ev (l.headD "") = none → ∀ acc, parseAux ev table acc = [] := by
  intro table
  induction table with
  | nil => intro l hl; cases hl
  | cons x xs ih =>
    intro l hl hlen hev acc
    by_cases hx : 0 < x.length
    · cases hevx : ev (x.headD "") with
      | none => rw [parseAux, if_pos hx, hevx]
      | some v =>
        rw [parseAux, if_pos hx, hevx]
        show parseAux ev xs (v :: acc) = []
        rcases List.mem_cons.mp hl with rfl | hmem
        · rw [hev] at hevx; cases hevx
        · exact ih l hmem hlen hev (v :: acc)
    · rw [parseAux, if_neg hx]
      rcases List.mem_cons.mp hl with rfl | hmem
      · exact absurd hlen hx
      · exact ih l hmem hlen hev acc

/-- C1 counterexample: the claim says a line that fails to parse is
skipped and every well-formed line's record still appears.  On the code,
the `except` branch executes `return (list())`: the well-formed line
`rec` evaluates to `goodRecord`, yet with a malformed line present the
parser output is empty, so `goodRecord` does not appear. -/
theorem parse_malformed_line_discards_all :
    evalFixture "rec" = some goodRecord ∧
    parse_kubernetes_namespaces evalFixture [["rec"], ["%garbage("]] = [] :=
  ⟨rfl, rfl⟩

/-- C1 amended: the record parser deserialises each line with `eval`;
when every non-empty line evaluates, the parsed values appear in order,
but the first line that raises makes the parser log the exception and
return the empty list, discarding all records (it aborts rather than
skipping the line). -/
theorem parse_aborts_on_malformed_line :
    (∀ (ev : String → Option J) (table : List (List String)),
      (∀ l ∈ table, 0 < l.length → (ev (l.headD "")).isSome) →
        parse_kubernetes_namespaces ev table
          = table.filterMap (fun l => if 0 < l.length then ev (l.headD "") else none)) ∧
    (∀ (ev : String → Option J) (table : List (List String)) (l : List String),
      l ∈ table → 0 < l.length → ev (l.headD "") = none →
        parse_kubernetes_namespaces ev table = []) :=
  ⟨fun ev table h => by simpa using parseAux_all_ok ev table [] h,
   fun ev table l hl hlen hev => parseAux_fails ev table l hl hlen hev []⟩

/-- C1 witness: both halves of the amended claim at concrete inputs. -/
theorem parse_aborts_on_malformed_line_witness :
    parse_kubernetes_namespaces evalFixture [["rec"], []] = [goodRecord] ∧
    parse_kubernetes_namespaces evalFixture [["rec"], ["%garbage("], ["rec"]] = [] := by
  constructor
  · have hall : ∀ l ∈ [["rec"], ([] : List String)], 0 < l.length →
        (evalFixture (l.headD "")).isSome = true := by
      intro l hl hlen
      fin_cases hl
      · rfl
      · exact absurd hlen (by simp)
    have h := parse_aborts_on_malformed_line.1 evalFixture [["rec"], []] hall
    simpa [evalFixture] using h
  · exact parse_aborts_on_malformed_line.2 evalFixture [["rec"], ["%garbage("], ["rec"]]
      ["%garbage("] (by simp) (by norm_num) rfl

/-- A successful `filterE` run returns a sublist. -/
theorem filterE_subset (p : α → Except String Bool) :
    ∀ (l l2 : List α), filterE p l = .ok l2 → ∀ x ∈ l2, x ∈ l := by
  intro l
  induction l with
  | nil => intro l2 h x hx; cases h; cases hx
  | cons a as ih =>
    intro l2 h x hx
    rw [filterE] at h
    cases hp : p a with
    | error e => rw [hp] at h; cases h
    | ok b =>
      rw [hp] at h
      cases hrest : filterE p as with
      | error e => rw [hrest] at h; cases h
      | ok l3 =>
        rw [hrest] at h
        cases h
        cases b with
        | true =>
          rcases List.mem_cons.mp (by simpa using hx) with rfl | hmem
          · exact List.mem_cons_self _ _
          · exact List.mem_cons_of_mem _ (ih l3 hrest x hmem)
        | false => exact List.mem_cons_of_mem _ (ih l3 hrest x (by simpa using hx))

/-- An item whose first owner reference is of kind `Deployment` is
dropped by the replicaset step (the owner condition evaluates to
`False`). -/
theorem replicasetStep_deployment_owned :
    ∀ i : J, firstOwnerIsDeployment i = true → replicasetStep i = .ok none := by
  intro i h
  unfold firstOwnerIsDeployment at h
  cases hX : ((objLookup i "metadata").bind
      (fun m => objLookup m "ownerReferences")).bind firstElem with
  | none => rw [hX] at h; simp at h
  | some owner =>
    rw [hX] at h
    have h2 : (match objLookup owner "kind" with
      | some v => jBeq v (J.str "Deployment")
      | none => false) = true := h
    rcases Option.bind_eq_some.mp hX with ⟨ors, hors, hfirst⟩
    rcases Option.bind_eq_some.mp hors with ⟨m, hmeta, hown⟩
    cases hk : objLookup owner "kind" with
    | none => rw [hk] at h2; simp at h2
    | some v =>
      rw [hk] at h2
      have hv : v = J.str "Deployment" := (jBeq_iff v _).mp h2
      subst hv
      cases i with
      | obj fs =>
        simp only [objLookup] at hmeta
        cases m with
        | obj ms =>
          simp only [objLookup] at hown
          cases ors with
          | list ol =>
            cases ol with
            | nil => simp [firstElem] at hfirst
            | cons o1 orest =>
              simp only [firstElem, Option.some.injEq] at hfirst
              subst hfirst
              cases o1 with
              | obj os =>
                simp only [objLookup] at hk
                have hmsE : ms.isEmpty = false := by
                  cases ms with
                  | nil => simp [jLookup] at hown
                  | cons q qs => rfl
                unfold replicasetStep replicasetOwnerCond
                simp [jGet, jIdx, hmeta, hown, hk, optTruthy, jTruthy, jIdx0,
                  optNeqStr, jBeq, hmsE, ok_bind]
                rfl
              | null => simp [objLookup] at hk
              | bool b => simp [objLookup] at hk
              | num n => simp [objLookup] at hk
              | str s2 => simp [objLookup] at hk
              | list l2 => simp [objLookup] at hk
          | null => simp [firstElem] at hfirst
          | bool b => simp [firstElem] at hfirst
          | num n => simp [firstElem] at hfirst
          | str s2 => simp [firstElem] at hfirst
          | obj fs2 => simp [firstElem] at hfirst
        | null => simp [objLookup] at hown
        | bool b => simp [objLookup] at hown
        | num n => simp [objLookup] at hown
        | str s2 => simp [objLookup] at hown
        | list l2 => simp [objLookup] at hown
      | null => simp [objLookup] at hmeta
      | bool b => simp [objLookup] at hmeta
      | num n => simp [objLookup] at hmeta
      | str s2 => simp [objLookup] at hmeta
      | list l2 => simp [objLookup] at hmeta

/-- C4: a replicaset whose first owner reference is of kind `Deployment`
never appears in the replicaset summary: the per-item step drops such an
item, and every binding of a successful `get_replicasets` run was
produced by the step on some dump item that is not Deployment-owned.
The owner check never consults the deployment summary, so this holds in
particular when the owning deployment is absent from the dump. -/
theorem replicasets_exclude_deployment_owned :
    (∀ i : J, firstOwnerIsDeployment i = true → replicasetStep i = .ok none) ∧
    (∀ (nr : J) (s : List (J × J)), get_replicasets nr = .ok s →
      ∀ kv ∈ s, ∃ items, collectorItems nr = .ok items ∧
        ∃ i ∈ items, replicasetStep i = .ok (some kv) ∧ firstOwnerIsDeployment i = false) := by
  refine ⟨replicasetStep_deployment_owned, fun nr s h kv hkv => ?_⟩
  unfold get_replicasets at h
  cases hitems : collectorItems nr with
  | error e => rw [hitems] at h; cases h
  | ok items =>
    rw [hitems] at h
    simp only [ok_bind] at h
    refine ⟨items, rfl, ?_⟩
    cases hfil : filterE (fun x => do
        pure (jBeq (← jIdx x "kind") (.str "ReplicaSet"))) items with
    | error e => rw [hfil] at h; cases h
    | ok filtered =>
      rw [hfil] at h
      simp only [ok_bind] at h
      rcases mem_foldSteps replicasetStep filtered [] s h kv hkv with hin | ⟨i, hi, hstep⟩
      · cases hin
      · refine ⟨i, filterE_subset _ items filtered hfil i hi, hstep, ?_⟩
        cases hfo : firstOwnerIsDeployment i with
        | false => rfl
        | true =>
          rw [replicasetStep_deployment_owned i hfo] at hstep
          cases hstep

/-- C4 witness: on a dump holding a Deployment-owned replicaset and a
standalone one (and no deployment at all), only the standalone
replicaset is summarised, and each summary binding traces back to a
non-owned item. -/
theorem replicasets_exclude_deployment_owned_witness :
    get_replicasets dumpReplicasets
      = .ok [(.str "free", .obj [("replicas", .num 2), ("ready_replicas", .num 2),
          ("available_replicas", .num 0)])] ∧
    get_deployments dumpReplicasets = .ok [] ∧
    firstOwnerIsDeployment rsOwnedByDeployment = true ∧
    replicasetStep rsOwnedByDeployment = .ok none ∧
    (∀ kv ∈ [((J.str "free"), J.obj [("replicas", .num 2), ("ready_replicas", .num 2),
        ("available_replicas", .num 0)])], ∃ items, collectorItems dumpReplicasets = .ok items ∧
      ∃ i ∈ items, replicasetStep i = .ok (some kv) ∧ firstOwnerIsDeployment i = false) :=
  ⟨rfl, rfl, rfl,
   replicasets_exclude_deployment_owned.1 rsOwnedByDeployment rfl,
   replicasets_exclude_deployment_owned.2 dumpReplicasets _ rfl⟩

theorem jDictInsert_forall {P : J × J → Prop} (d : List (J × J)) (k v : J)
    (hd : ∀ kv ∈ d, P kv) (hkv : P (k, v)) :
    ∀ kv ∈ jDictInsert d k v, P kv := by
  intro kv hmem
  unfold jDictInsert at hmem
  split at hmem
  · rcases List.mem_map.mp hmem with ⟨q, hq, hqe⟩
    by_cases hb : jBeq q.1 k = true
    · rw [if_pos hb] at hqe; subst hqe; exact hkv
    · rw [if_neg hb] at hqe; subst hqe; exact hd q hq
  · rcases List.mem_append.mp hmem with hq | hq
    · exact hd kv hq
    · rcases List.mem_singleton.mp hq with rfl; exact hkv

theorem parseDfLines_shape (gns volume : J) :
    ∀ (lines : List String) (pvs pvs2 : List (J × J)),
      (∀ kv ∈ pvs, PvEntryShape gns kv) →
      parseDfLines gns volume lines pvs = .ok pvs2 →
      ∀ kv ∈ pvs2, PvEntryShape gns kv := by
  intro lines
  induction lines with
  | nil =>
    intro pvs pvs2 hP h
    rw [parseDfLines] at h
    cases h
    exact hP
  | cons line rest ih =>
    intro pvs pvs2 hP h
    rw [parseDfLines] at h
    split at h
    case isTrue =>
      split at h
      case h_1 _mountpoint _used_percent available used capacity _tail heq =>
        split at h
        case isTrue hdig =>
          dsimp only at h
          split at h
          case isTrue => cases h
          case isFalse hcz =>
            cases hpc : jIdx volume "persistentVolumeClaim" with
            | error e => rw [hpc] at h; cases h
            | ok pvcl =>
              rw [hpc] at h
              simp only [ok_bind] at h
              cases hcn : jIdx pvcl "claimName" with
              | error e => rw [hcn] at h; cases h
              | ok claim =>
                rw [hcn] at h
                simp only [ok_bind] at h
                refine ih _ pvs2 (jDictInsert_forall pvs claim _ hP ?_) h
                refine ⟨pyToNat capacity, pyToNat used, pyToNat available, ?_, rfl⟩
                intro hc0
                exact hcz (by simp [hc0])
        case isFalse => exact ih pvs pvs2 hP h
      case h_2 => cases h
    case isFalse => exact ih pvs pvs2 hP h

theorem pvMounts_shape (sampler : J → J → J → String) (gns pod volume : J) :
    ∀ (mounts : List J) (st : PvState) (tr : List SampleCall),
      (∀ kv ∈ st.persistent_volumes, PvEntryShape gns kv) →
      ∀ st2 tr2, pvMounts sampler gns pod volume mounts st tr = (.ok st2, tr2) →
      ∀ kv ∈ st2.persistent_volumes, PvEntryShape gns kv := by
  intro mounts
  induction mounts with
  | nil =>
    intro st tr hP st2 tr2 h
    rw [pvMounts] at h
    cases h
    exact hP
  | cons mount rest ih =>
    intro st tr hP st2 tr2 h
    rw [pvMounts] at h
    split at h
    · simp at h
    · split at h
      · simp at h
      · split at h
        · split at h
          · simp at h
          · split at h
            · simp at h
            · split at h
              · simp at h
              · dsimp only at h
                split at h
                · simp at h
                next pvs2x heq6 =>
                  refine ih _ _ ?_ st2 tr2 h
                  split at heq6
                  · exact parseDfLines_shape gns volume _ _ pvs2x hP heq6
                  · cases heq6; exact hP
        · exact ih st tr hP st2 tr2 h

theorem pvContainers_shape (sampler : J → J → J → String) (gns pod volume : J) :
    ∀ (containers : List J) (st : PvState) (tr : List SampleCall),
      (∀ kv ∈ st.persistent_volumes, PvEntryShape gns kv) →
      ∀ st2 tr2, pvContainers sampler gns pod volume containers st tr = (.ok st2, tr2) →
      ∀ kv ∈ st2.persistent_volumes, PvEntryShape gns kv := by
  intro containers
  induction containers with
  | nil =>
    intro st tr hP st2 tr2 h
    rw [pvContainers] at h
    cases h
    exact hP
  | cons container rest ih =>
    intro st tr hP st2 tr2 h
    rw [pvContainers] at h
    split at h
    · simp at h
    · split at h
      · split at h
        · simp at h
        · split at h
          · simp at h
          next stm trm heqm =>
            exact ih _ _ (pvMounts_shape sampler gns pod volume _ st tr hP stm trm heqm)
              st2 tr2 h
      · exact ih st tr hP st2 tr2 h

theorem pvVolumes_shape (sampler : J → J → J → String) (gns pod : J) :
    ∀ (volumes : List J) (st : PvState) (tr : List SampleCall),
      (∀ kv ∈ st.persistent_volumes, PvEntryShape gns kv) →
      ∀ st2 tr2, pvVolumes sampler gns pod volumes st tr = (.ok st2, tr2) →
      ∀ kv ∈ st2.persistent_volumes, PvEntryShape gns kv := by
  intro volumes
  induction volumes with
  | nil =>
    intro st tr hP st2 tr2 h
    rw [pvVolumes] at h
    cases h
    exact hP
  | cons volume rest ih =>
    intro st tr hP st2 tr2 h
    rw [pvVolumes] at h
    split at h
    · simp at h
    · split at h
      · simp at h
      next stc trc heqc =>
        exact ih _ _ (pvContainers_shape sampler gns pod volume _ st tr hP stc trc heqc)
          st2 tr2 h

theorem pvPods_shape (sampler : J → J → J → String) (gns : J) :
    ∀ (pods : List J) (st : PvState) (tr : List SampleCall),
      (∀ kv ∈ st.persistent_volumes, PvEntryShape gns kv) →
      ∀ st2 tr2, pvPods sampler gns pods st tr = (.ok st2, tr2) →
      ∀ kv ∈ st2.persistent_volumes, PvEntryShape gns kv := by
  intro pods
  induction pods with
  | nil =>
    intro st tr hP st2 tr2 h
    rw [pvPods] at h
    cases h
    exact hP
  | cons pod rest ih =>
    intro st tr hP st2 tr2 h
    rw [pvPods] at h
    split at h
    · simp at h
    · split at h
      · split at h
        · simp at h
        · split at h
          · simp at h
          next stv trv heqv =>
            exact ih _ _ (pvVolumes_shape sampler gns pod _ st tr hP stv trv heqv)
              st2 tr2 h
      · exact ih st tr hP st2 tr2 h

/-- C5 counterexample: for `df` block counts capacity=100, used=29 the
code records percentage 28 (binary64: `int((29696/102400)*100)` is 28
because `0.29 * 100` rounds below 29), while the exact
`floor(used / capacity * 100)` is 29. -/
theorem percentage_not_exact_floor :
    (get_persistent_volumes samplerDf29 (.str "ns") dumpOnePvPod).1
      = .ok [(.str "claim", .obj [
          ("namespace", .str "ns"),
          ("pvc", .str "claim"),
          ("percentage", .num 28),
          ("capacity", .num 102400),
          ("used", .num 29696),
          ("available", .num 72704)])] ∧
    (29696 * 100) / 102400 = (29 : Nat) ∧ (28 : Int) ≠ 29 :=
  ⟨rfl, rfl, by decide⟩

/-- C5 amended: every recorded persistent-volume entry carries capacity,
used and available equal to the sampled 1-KiB block counts multiplied by
1024, and a percentage equal to `int((used / capacity) * 100)` computed
in binary64 float arithmetic — which can fall one below the exact
`floor(used / capacity * 100)` (see the counterexample); for the
claim's concrete case capacity=1000, used=950 the two agree and the
recorded percentage is 95. -/
theorem persistent_volume_percentage_binary64 :
    (∀ (sampler : J → J → J → String) (gns nr : J) (pvs : List (J × J)),
      (get_persistent_volumes sampler gns nr).1 = .ok pvs →
      ∀ kv ∈ pvs, PvEntryShape gns kv) ∧
    (get_persistent_volumes samplerDf950 (.str "ns") dumpOnePvPod).1
      = .ok [(.str "claim", .obj [
          ("namespace", .str "ns"),
          ("pvc", .str "claim"),
          ("percentage", .num 95),
          ("capacity", .num 1024000),
          ("used", .num 972800),
          ("available", .num 51200)])] ∧
    (950 * 100) / 1000 = (95 : Nat) := by
  refine ⟨fun sampler gns nr pvs h => ?_, rfl, rfl⟩
  unfold get_persistent_volumes at h
  split at h
  · simp at h
  · split at h
    next e tr heq => simp at h
    next st tr heq =>
      cases h
      exact pvPods_shape sampler gns _ ⟨[], []⟩ [] (by intro kv hkv; cases hkv) st tr heq

/-- C5 amended witness: the shape invariant instantiated on the concrete
950/1000 run. -/
theorem persistent_volume_percentage_binary64_witness :
    PvEntryShape (.str "ns") (.str "claim", .obj [
      ("namespace", .str "ns"),
      ("pvc", .str "claim"),
      ("percentage", .num 95),
      ("capacity", .num 1024000),
      ("used", .num 972800),
      ("available", .num 51200)]) :=
  persistent_volume_percentage_binary64.1 samplerDf950 (.str "ns") dumpOnePvPod _
    rfl _ (List.mem_singleton.mpr rfl)

theorem pvMounts_trace (sampler : J → J → J → String) (gns pod volume : J) :
    ∀ (mounts : List J) (st : PvState) (tr : List SampleCall),
      (∀ cl ∈ tr, cl.mountName ∈ st.mounts_scanned) →
      (tr.map SampleCall.mountName).Nodup →
      ((pvMounts sampler gns pod volume mounts st tr).2.map SampleCall.mountName).Nodup ∧
      (∀ st2 tr2, pvMounts sampler gns pod volume mounts st tr = (.ok st2, tr2) →
        ∀ cl ∈ tr2, cl.mountName ∈ st2.mounts_scanned) := by
  intro mounts
  induction mounts with
  | nil =>
    intro st tr hmem hnd
    rw [pvMounts]
    exact ⟨hnd, fun st2 tr2 h => by cases h; exact hmem⟩
  | cons mount rest ih =>
    intro st tr hmem hnd
    rw [pvMounts]
    split
    next e heq1 => exact ⟨hnd, fun st2 tr2 h => by simp at h⟩
    next mname heq1 =>
      split
      next e heq2 => exact ⟨hnd, fun st2 tr2 h => by simp at h⟩
      next vname heq2 =>
        split
        next hcond =>
          have hnotin : mname ∉ st.mounts_scanned := by
            have hany : st.mounts_scanned.any (fun x => jBeq x mname) = false := by
              cases hA : (st.mounts_scanned.any fun x => jBeq x mname) with
              | false => rfl
              | true => rw [hA] at hcond; simp at hcond
            intro hin
            have hfalse := List.any_eq_false.mp hany mname hin
            exact hfalse ((jBeq_iff _ _).mpr rfl)
          split
          next e heq3 => exact ⟨hnd, fun st2 tr2 h => by simp at h⟩
          next podName heq3 =>
            split
            next e heq4 => exact ⟨hnd, fun st2 tr2 h => by simp at h⟩
            next podNs heq4 =>
              split
              next e heq5 => exact ⟨hnd, fun st2 tr2 h => by simp at h⟩
              next mpath heq5 =>
                dsimp only
                have hmem2 : ∀ cl ∈ tr ++ [(⟨mname, podName, podNs, mpath⟩ : SampleCall)],
                    cl.mountName ∈ st.mounts_scanned ++ [mname] := by
                  intro cl hcl
                  rcases List.mem_append.mp hcl with hcl | hcl
                  · exact List.mem_append_left _ (hmem cl hcl)
                  · rcases List.mem_singleton.mp hcl with rfl
                    exact List.mem_append_right _ (List.mem_singleton.mpr rfl)
                have hnd2 : ((tr ++ [(⟨mname, podName, podNs, mpath⟩ : SampleCall)]).map
                    SampleCall.mountName).Nodup := by
                  rw [List.map_append, List.nodup_append]
                  refine ⟨hnd, List.nodup_singleton _, ?_⟩
                  intro x hx hx2
                  rcases List.mem_map.mp hx with ⟨cl, hcl, rfl⟩
                  have hXX : cl.mountName = mname := List.mem_singleton.mp hx2
                  exact hnotin (hXX ▸ hmem cl hcl)
                split
                next e heq6 => exact ⟨hnd2, fun st2 tr2 h => by simp at h⟩
                next pvs2 heq6 => exact ih _ _ hmem2 hnd2
        next hcond => exact ih st tr hmem hnd

theorem pvContainers_trace (sampler : J → J → J → String) (gns pod volume : J) :
    ∀ (containers : List J) (st : PvState) (tr : List SampleCall),
      (∀ cl ∈ tr, cl.mountName ∈ st.mounts_scanned) →
      (tr.map SampleCall.mountName).Nodup →
      ((pvContainers sampler gns pod volume containers st tr).2.map SampleCall.mountName).Nodup ∧
      (∀ st2 tr2, pvContainers sampler gns pod volume containers st tr = (.ok st2, tr2) →
        ∀ cl ∈ tr2, cl.mountName ∈ st2.mounts_scanned) := by
  intro containers
  induction containers with
  | nil =>
    intro st tr hmem hnd
    rw [pvContainers]
    exact ⟨hnd, fun st2 tr2 h => by cases h; exact hmem⟩
  | cons container rest ih =>
    intro st tr hmem hnd
    rw [pvContainers]
    split
    next e heq => exact ⟨hnd, fun st2 tr2 h => by simp at h⟩
    next b heq =>
      split
      · split
        next e heq2 => exact ⟨hnd, fun st2 tr2 h => by simp at h⟩
        next mounts heq2 =>
          have hM := pvMounts_trace sampler gns pod volume mounts st tr hmem hnd
          split
          next e trm heqm =>
            refine ⟨?_, fun st2 tr2 h => by simp at h⟩
            have h1 := hM.1
            rw [heqm] at h1
            exact h1
          next stm trm heqm =>
            refine ih stm trm (hM.2 stm trm heqm) ?_
            have h1 := hM.1
            rw [heqm] at h1
            exact h1
      · exact ih st tr hmem hnd

theorem pvVolumes_trace (sampler : J → J → J → String) (gns pod : J) :
    ∀ (volumes : List J) (st : PvState) (tr : List SampleCall),
      (∀ cl ∈ tr, cl.mountName ∈ st.mounts_scanned) →
      (tr.map SampleCall.mountName).Nodup →
      ((pvVolumes sampler gns pod volumes st tr).2.map SampleCall.mountName).Nodup ∧
      (∀ st2 tr2, pvVolumes sampler gns pod volumes st tr = (.ok st2, tr2) →
        ∀ cl ∈ tr2, cl.mountName ∈ st2.mounts_scanned) := by
  intro volumes
  induction volumes with
  | nil =>
    intro st tr hmem hnd
    rw [pvVolumes]
    exact ⟨hnd, fun st2 tr2 h => by cases h; exact hmem⟩
  | cons volume rest ih =>
    intro st tr hmem hnd
    rw [pvVolumes]
    split
    next e heq => exact ⟨hnd, fun st2 tr2 h => by simp at h⟩
    next containers heq =>
      have hC := pvContainers_trace sampler gns pod volume containers st tr hmem hnd
      split
      next e trc heqc =>
        refine ⟨?_, fun st2 tr2 h => by simp at h⟩
        have h1 := hC.1
        rw [heqc] at h1
        exact h1
      next stc trc heqc =>
        refine ih stc trc (hC.2 stc trc heqc) ?_
        have h1 := hC.1
        rw [heqc] at h1
        exact h1

theorem pvPods_trace (sampler : J → J → J → String) (gns : J) :
    ∀ (pods : List J) (st : PvState) (tr : List SampleCall),
      (∀ cl ∈ tr, cl.mountName ∈ st.mounts_scanned) →
      (tr.map SampleCall.mountName).Nodup →
      ((pvPods sampler gns pods st tr).2.map SampleCall.mountName).Nodup ∧
      (∀ st2 tr2, pvPods sampler gns pods st tr = (.ok st2, tr2) →
        ∀ cl ∈ tr2, cl.mountName ∈ st2.mounts_scanned) := by
  intro pods
  induction pods with
  | nil =>
    intro st tr hmem hnd
    rw [pvPods]
    exact ⟨hnd, fun st2 tr2 h => by cases h; exact hmem⟩
  | cons pod rest ih =>
    intro st tr hmem hnd
    rw [pvPods]
    split
    next e heq => exact ⟨hnd, fun st2 tr2 h => by simp at h⟩
    next b heq =>
      split
      · split
        next e heq2 => exact ⟨hnd, fun st2 tr2 h => by simp at h⟩
        next volumes heq2 =>
          have hV := pvVolumes_trace sampler gns pod volumes st tr hmem hnd
          split
          next e trv heqv =>
            refine ⟨?_, fun st2 tr2 h => by simp at h⟩
            have h1 := hV.1
            rw [heqv] at h1
            exact h1
          next stv trv heqv =>
            refine ih stv trv (hV.2 stv trv heqv) ?_
            have h1 := hV.1
            rw [heqv] at h1
            exact h1
      · exact ih st tr hmem hnd

/-- C3: in one run of `get_persistent_volumes` over a namespace dump,
the in-pod usage sampler is invoked at most once per distinct
volume-mount name — the trace of sampler calls has pairwise-distinct
mount names (the name is appended to `mounts_scanned` after the attempt
whether or not any `df` line parsed).  For the two running pods sharing
one claim mounted under the volume name `vol` in both, the sampling
call count is exactly 1 — also when the sampler's output fails to
parse. -/
theorem persistent_volume_sampling_deduplicated :
    (∀ (sampler : J → J → J → String) (gns nr : J),
      ((get_persistent_volumes sampler gns nr).2.map SampleCall.mountName).Nodup) ∧
    (get_persistent_volumes samplerDf950 (.str "ns") dumpSharedPvc).2.length = 1 ∧
    (get_persistent_volumes samplerDf950 (.str "ns") dumpSharedPvc).2.map
      SampleCall.mountName = [.str "vol"] ∧
    (get_persistent_volumes samplerHeaderOnly (.str "ns") dumpSharedPvc).2.length = 1 ∧
    (get_persistent_volumes samplerHeaderOnly (.str "ns") dumpSharedPvc).1 = .ok [] := by
  refine ⟨fun sampler gns nr => ?_, rfl, rfl, rfl, rfl⟩
  unfold get_persistent_volumes
  split
  · simp
  next pods heq =>
    have hP := pvPods_trace sampler gns pods ⟨[], []⟩ []
      (by intro cl hcl; cases hcl) List.nodup_nil
    split
    next e tr heqp =>
      have h1 := hP.1
      rw [heqp] at h1
      exact h1
    next st tr heqp =>
      have h1 := hP.1
      rw [heqp] at h1
      exact h1

/-- C8: with the rule list `[{namespace: 'A', pods: True}]` (no default
rule) and a record for namespace `B` with a non-empty pod summary, the
discovery engine emits nothing at all; and in general, for any non-empty
rule list none of whose rules names the record's namespace, every
emitted service for that record arises from some default rule (one whose
`namespace` field is absent or falsy) through a truthy flag whose key is
the emitting resource kind. -/
theorem discovery_rule_resolution :
    discover_kubernetes_namespaces [ruleNamespaceA] [recordB] = .ok [] ∧
    (∀ (rules : List J) (fs : List (String × J)) (svcs : List Service) (svc : Service),
      rules ≠ [] →
      (∀ r ∈ rules, ∀ o, jGet r "namespace" = .ok o → optTruthy o = true →
        jBeq (optToJ o) (optToJ (jLookup fs "name")) = false) →
      discover_kubernetes_namespaces rules [.obj fs] = .ok svcs →
      svc ∈ svcs →
      ∃ r ∈ rules, ∃ rfs, r = J.obj rfs ∧
        optTruthy (jLookup rfs "namespace") = false ∧
        ∃ p ∈ rfs, jTruthy p.2 = true ∧ ∃ q ∈ fs, q.1 = p.1 ∧ q.1 ≠ "name" ∧
          ∃ lst, _discover_service_in_namespace q.2 q.1
              (optToJ (jLookup fs "name")) = .ok lst ∧ svc ∈ lst) := by
  refine ⟨rfl, fun rules fs svcs svc hne hnn hdisc hsvc => ?_⟩
  unfold discover_kubernetes_namespaces at hdisc
  rcases mem_concatMapE _ _ svcs svc hdisc hsvc with ⟨x, hx, zs, hF, hzs⟩
  rcases List.mem_singleton.mp hx with rfl
  have hF2 : (if (!jBeq (J.obj fs) (.str "check_mk") && optTruthy (jLookup fs "name")) = true then
      concatMapE (fun p =>
        if (p.1 != "name") = true then
          if rules.isEmpty = true then
            _discover_service_in_namespace p.2 p.1 (optToJ (jLookup fs "name"))
          else do
            let namespaces_from_parameters ← _get_namespaces_from_parameters rules
            discoverKindWithRules rules namespaces_from_parameters
              (optToJ (jLookup fs "name")) p.1 p.2
        else pure []) fs
    else pure []) = .ok zs := hF
  clear hF hdisc
  split at hF2
  case isFalse =>
    cases hF2
    cases hzs
  case isTrue hguard =>
    rcases mem_concatMapE _ _ zs svc hF2 hzs with ⟨q, hq, zs2, hG, hzs2⟩
    have hrulesE : rules.isEmpty = false := by
      cases rules with
      | nil => exact absurd rfl hne
      | cons a as => rfl
    rw [hrulesE] at hG
    split at hG
    case isTrue hqname =>
      simp only [Bool.false_eq_true, if_false] at hG
      cases hns : _get_namespaces_from_parameters rules with
      | error e => rw [hns] at hG; cases hG
      | ok nsfp =>
        rw [hns] at hG
        simp only [ok_bind] at hG
        unfold discoverKindWithRules at hG
        rcases mem_concatMapE _ _ zs2 svc hG hzs2 with ⟨r, hr, zs3, hH, hzs3⟩
        cases hrg : jGet r "namespace" with
        | error e => rw [hrg] at hH; cases hH
        | ok rns =>
          rw [hrg] at hH
          simp only [ok_bind] at hH
          have hb1 : (optTruthy rns && jBeq (optToJ rns) (optToJ (jLookup fs "name"))) = false := by
            cases hopt : optTruthy rns with
            | false => rfl
            | true => simp [hnn r hr rns hrg hopt]
          rw [hb1] at hH
          simp only [Bool.false_eq_true, if_false] at hH
          split at hH
          case isTrue hb2 =>
            have hopt : optTruthy rns = false := by
              rcases Bool.and_eq_true_iff.mp hb2 with ⟨hl, -⟩
              simpa using hl
            unfold discoverRuleFlags at hH
            cases r with
            | obj rfs =>
              rcases mem_concatMapE _ _ zs3 svc hH hzs3 with ⟨p, hp, zs4, hK, hzs4⟩
              split at hK
              case isTrue hflag =>
                rcases Bool.and_eq_true_iff.mp hflag with ⟨hkey, htr⟩
                refine ⟨.obj rfs, hr, rfs, rfl, ?_, p, hp, htr, q, hq, ?_, ?_, zs4, hK, hzs4⟩
                · have : rns = jLookup rfs "namespace" := by
                    simp only [jGet] at hrg
                    exact (Except.ok.injEq _ _).mp hrg.symm |>.symm ▸ rfl
                  rw [← this]
                  exact hopt
                · exact (eq_of_beq hkey).symm
                · simpa using hqname
              case isFalse => cases hK; cases hzs4
            | null => cases hH
            | bool b => cases hH
            | num n => cases hH
            | str s2 => cases hH
            | list l2 => cases hH
          case isFalse => cases hH; cases hzs3
    case isFalse =>
      cases hG
      cases hzs2

/-- C8 witness: the general direction applied to the default rule
`{pods: True}` and the record for namespace `B`, whose only emitted
service is `B / pods`. -/
theorem discovery_rule_resolution_witness :
    discover_kubernetes_namespaces [rulePodsDefault] [recordB] = .ok [⟨"B / pods"⟩] ∧
    ∃ r ∈ [rulePodsDefault], ∃ rfs, r = J.obj rfs ∧
      optTruthy (jLookup rfs "namespace") = false ∧
      ∃ p ∈ rfs, jTruthy p.2 = true ∧ ∃ q ∈ recordBFields, q.1 = p.1 ∧ q.1 ≠ "name" ∧
        ∃ lst, _discover_service_in_namespace q.2 q.1
            (optToJ (jLookup recordBFields "name")) = .ok lst ∧
          (⟨"B / pods"⟩ : Service) ∈ lst := by
  refine ⟨rfl, discovery_rule_resolution.2 [rulePodsDefault] recordBFields [⟨"B / pods"⟩]
    ⟨"B / pods"⟩ (by simp) ?_ rfl (by simp)⟩
  intro r hr o ho ht
  rcases List.mem_singleton.mp hr with rfl
  have ho2 : o = none := by
    have hcomp : jGet rulePodsDefault "namespace" = .ok none := rfl
    rw [hcomp] at ho
    exact (Except.ok.injEq _ _).mp ho.symm
  rw [ho2] at ht
  simp [optTruthy] at ht

end KubernetesNamespaces
